import Mathlib

/-
Verification of the swpt_creditors_ui synchronization / formatting core.

The TypeScript sources are shallowly embedded below.  JavaScript numbers
(IEEE-754 binary64) are modelled exactly: a finite double is represented by
the exact rational value it denotes (an unreduced fraction with a positive
denominator), and every arithmetic operation first computes the exact
rational result and then rounds it to the binary64 grid with round-to-
nearest, ties-to-even, exactly as IEEE-754 prescribes.  The negative zero
is identified with positive zero; none of the verified code paths can
observe the difference (the only consumers of a possibly negative zero
here are BigInt conversion, toFixed and comparisons, all of which treat
the two zeros identically).

JavaScript exceptions are modelled with `Except JSErr`.
-/

set_option maxRecDepth 1000000

namespace Swpt

/-- Errors thrown by the embedded code (JavaScript exception classes). -/
inductive JSErr where
  | assertionError
  | rangeError
  | syntaxError
  | typeError
  | brokenLogStream
  | wrongObjectType
  | httpError (status : Nat)
  | serverSessionError
  | authenticationError
  | documentFetchError
  | invalidCoinUri
  | otherError
deriving DecidableEq, Repr

/-- Decidable equality for Except values, used to evaluate concrete runs
of the embedded fallible functions. -/
instance {ε α : Type} [DecidableEq ε] [DecidableEq α] : DecidableEq (Except ε α) := fun a b =>
  match a, b with
  | .ok x, .ok y =>
    if h : x = y then .isTrue (by rw [h]) else .isFalse (by simp [h])
  | .error x, .error y =>
    if h : x = y then .isTrue (by rw [h]) else .isFalse (by simp [h])
  | .ok _, .error _ => .isFalse (by simp)
  | .error _, .ok _ => .isFalse (by simp)

/-- Exact (unreduced) fraction with a positive denominator.  Used as the
carrier of finite binary64 values; all arithmetic on it is exact. -/
structure Frac where
  num : Int
  den : Int
  den_pos : 0 < den

/-- Build a fraction from an integer. -/
def Frac.ofInt (n : Int) : Frac := ⟨n, 1, by norm_num⟩

/-- Exact sum. -/
def Frac.add (a b : Frac) : Frac :=
  ⟨a.num * b.den + b.num * a.den, a.den * b.den, mul_pos a.den_pos b.den_pos⟩

/-- Exact difference. -/
def Frac.sub (a b : Frac) : Frac :=
  ⟨a.num * b.den - b.num * a.den, a.den * b.den, mul_pos a.den_pos b.den_pos⟩

/-- Exact product. -/
def Frac.mul (a b : Frac) : Frac :=
  ⟨a.num * b.num, a.den * b.den, mul_pos a.den_pos b.den_pos⟩

/-- Exact quotient; the caller guarantees `b.num ≠ 0` (division by a zero
fraction returns 0 here and is screened out before the call). -/
def Frac.div (a b : Frac) : Frac :=
  if h : 0 < b.num then
    ⟨a.num * b.den, a.den * b.num, mul_pos a.den_pos h⟩
  else if h2 : b.num < 0 then
    ⟨-(a.num * b.den), a.den * (-b.num), mul_pos a.den_pos (by omega)⟩
  else
    Frac.ofInt 0

/-- Exact negation. -/
def Frac.neg (a : Frac) : Frac := ⟨-a.num, a.den, a.den_pos⟩

/-- Exact absolute value. -/
def Frac.abs (a : Frac) : Frac := ⟨|a.num|, a.den, a.den_pos⟩

/-- Value comparison (less-or-equal) by cross multiplication. -/
def Frac.le (a b : Frac) : Bool := a.num * b.den ≤ b.num * a.den

/-- Value comparison (strictly less) by cross multiplication. -/
def Frac.lt (a b : Frac) : Bool := a.num * b.den < b.num * a.den

/-- Value equality by cross multiplication. -/
def Frac.veq (a b : Frac) : Bool := a.num * b.den = b.num * a.den

/-- Floor of the exact value. -/
def Frac.floor (a : Frac) : Int := Int.fdiv a.num a.den

/-- Ceiling of the exact value. -/
def Frac.ceil (a : Frac) : Int := -Int.fdiv (-a.num) a.den

/-- Truncation toward zero (the ECMAScript ToIntegerOrInfinity rounding). -/
def Frac.trunc (a : Frac) : Int := if a.num < 0 then a.ceil else a.floor

/-- Whether the exact value is an integer. -/
def Frac.isInt (a : Frac) : Bool := a.num % a.den = 0

/-- The fraction m·2^e, kept with a power-of-two denominator.  Powers are
computed on naturals (which the kernel evaluates efficiently). -/
def Frac.scale2 (m : Int) (e : Int) : Frac :=
  if h : 0 ≤ e then ⟨m * ((2 ^ e.toNat : Nat) : Int), 1, by norm_num⟩
  else ⟨m, ((2 ^ (-e).toNat : Nat) : Int), by positivity⟩

/-- The fraction 2^z for an arbitrary integer z. -/
def Frac.pow2 (z : Int) : Frac := Frac.scale2 1 z

/-- The fraction 10^z for an arbitrary integer z. -/
def Frac.pow10 (z : Int) : Frac :=
  if h : 0 ≤ z then ⟨((10 ^ z.toNat : Nat) : Int), 1, by positivity⟩
  else ⟨1, ((10 ^ (-z).toNat : Nat) : Int), by positivity⟩

/-- Number of binary digits of a natural number (0 for 0), computed with
explicit fuel so that the kernel can evaluate it. -/
def bitlenAux : Nat → Nat → Nat
  | 0, _ => 0
  | fuel + 1, n => if n = 0 then 0 else bitlenAux fuel (n / 2) + 1

/-- Number of binary digits of a natural number. -/
def bitlen (n : Nat) : Nat := bitlenAux n n

/-- Number of decimal digits of a natural number (0 for 0). -/
def declenAux : Nat → Nat → Nat
  | 0, _ => 0
  | fuel + 1, n => if n = 0 then 0 else declenAux fuel (n / 10) + 1

/-- Number of decimal digits of a natural number. -/
def declen (n : Nat) : Nat := declenAux n n

/-- Floor of the base-2 logarithm of a positive fraction.  The bit lengths
of numerator and denominator give a first guess that is off by at most
one; a single exact comparison settles it. -/
def Frac.flog2 (q : Frac) : Int :=
  let z0 : Int := (bitlen q.num.toNat : Int) - (bitlen q.den.toNat : Int)
  if Frac.le (Frac.pow2 z0) q then z0 else z0 - 1

/-- Floor of the base-10 logarithm of a positive fraction. -/
def Frac.flog10 (q : Frac) : Int :=
  let z0 : Int := (declen q.num.toNat : Int) - (declen q.den.toNat : Int)
  if Frac.le (Frac.pow10 z0) q then z0 else z0 - 1

/-- Round the exact value to an integer, to nearest, ties to even. -/
def Frac.rndEven (f : Frac) : Int :=
  let n := f.floor
  let twice := 2 * (f.num - n * f.den)
  if twice < f.den then n
  else if f.den < twice then n + 1
  else if n % 2 = 0 then n else n + 1

/-- Round the exact value to an integer, to nearest, ties toward +∞ (the
rounding of ECMAScript Math.round, toFixed and toPrecision). -/
def Frac.rndHalfUp (f : Frac) : Int := (f.add ⟨1, 2, by norm_num⟩).floor

/-- A JavaScript number: NaN, a signed infinity, or a finite binary64
value carried as its exact rational value (negative zero identified with
zero). -/
inductive JSNum where
  | nan : JSNum
  | inf : Bool → JSNum
  | finite : Frac → JSNum

/-- Round an exact rational to the nearest binary64 value (ties to even),
overflowing to an infinity exactly at the IEEE-754 threshold and using the
subnormal grid below 2^(-1022). -/
def f64ofFrac (q : Frac) : JSNum :=
  if q.num = 0 then .finite (Frac.ofInt 0)
  else
    let e : Int := max (q.abs.flog2 - 52) (-1074)
    let m : Int := Frac.rndEven (q.div (Frac.pow2 e))
    let r : Frac := Frac.scale2 m e
    if Frac.le (Frac.pow2 1024) r.abs then .inf (q.num < 0)
    else .finite r

/-- The binary64 value of an integer (bigint-to-number conversion). -/
def f64ofInt (n : Int) : JSNum := f64ofFrac (Frac.ofInt n)

/-- The binary64 value of a natural number. -/
def f64ofNat (n : Nat) : JSNum := f64ofInt n

/-- JavaScript addition. -/
def jsAdd : JSNum → JSNum → JSNum
  | .nan, _ => .nan
  | _, .nan => .nan
  | .inf s, .inf t => if s = t then .inf s else .nan
  | .inf s, .finite _ => .inf s
  | .finite _, .inf s => .inf s
  | .finite a, .finite b => f64ofFrac (a.add b)

/-- JavaScript subtraction. -/
def jsSub : JSNum → JSNum → JSNum
  | .nan, _ => .nan
  | _, .nan => .nan
  | .inf s, .inf t => if s = t then .nan else .inf s
  | .inf s, .finite _ => .inf s
  | .finite _, .inf s => .inf (!s)
  | .finite a, .finite b => f64ofFrac (a.sub b)

/-- JavaScript multiplication. -/
def jsMul : JSNum → JSNum → JSNum
  | .nan, _ => .nan
  | _, .nan => .nan
  | .inf s, .inf t => .inf (s != t)
  | .inf s, .finite b => if b.num = 0 then .nan else .inf (s != decide (b.num < 0))
  | .finite a, .inf t => if a.num = 0 then .nan else .inf (decide (a.num < 0) != t)
  | .finite a, .finite b => f64ofFrac (a.mul b)

/-- JavaScript division. -/
def jsDiv : JSNum → JSNum → JSNum
  | .nan, _ => .nan
  | _, .nan => .nan
  | .inf _, .inf _ => .nan
  | .inf s, .finite b => .inf (s != decide (b.num < 0))
  | .finite _, .inf _ => .finite (Frac.ofInt 0)
  | .finite a, .finite b =>
    if b.num = 0 then (if a.num = 0 then .nan else .inf (decide (a.num < 0)))
    else f64ofFrac (a.div b)

/-- JavaScript loose/strict numeric comparison x < y (false on NaN). -/
def jsLt : JSNum → JSNum → Bool
  | .nan, _ => false
  | _, .nan => false
  | .inf s, .inf t => s && !t
  | .inf s, .finite _ => s
  | .finite _, .inf t => !t
  | .finite a, .finite b => a.lt b

/-- JavaScript numeric comparison x <= y (false on NaN). -/
def jsLe : JSNum → JSNum → Bool
  | .nan, _ => false
  | _, .nan => false
  | .inf s, .inf t => s = t || (s && !t)
  | .inf s, .finite _ => s
  | .finite _, .inf t => !t
  | .finite a, .finite b => a.le b

/-- JavaScript numeric comparison x >= y. -/
def jsGe (a b : JSNum) : Bool := jsLe b a

/-- JavaScript numeric comparison x > y. -/
def jsGt (a b : JSNum) : Bool := jsLt b a

/-- JavaScript strict equality on numbers (NaN is not equal to itself). -/
def jsStrictEq : JSNum → JSNum → Bool
  | .nan, _ => false
  | _, .nan => false
  | .inf s, .inf t => s = t
  | .finite a, .finite b => a.veq b
  | _, _ => false

/-- JavaScript Math.max of two numbers (NaN wins). -/
def jsMax (a b : JSNum) : JSNum :=
  match a, b with
  | .nan, _ => .nan
  | _, .nan => .nan
  | _, _ => if jsLt a b then b else a

/-- JavaScript Math.min of two numbers (NaN wins). -/
def jsMin (a b : JSNum) : JSNum :=
  match a, b with
  | .nan, _ => .nan
  | _, .nan => .nan
  | _, _ => if jsLt b a then b else a

/-- JavaScript Math.ceil.  The ceiling of any finite binary64 value is
again exactly representable, so no re-rounding is needed. -/
def jsCeil : JSNum → JSNum
  | .nan => .nan
  | .inf s => .inf s
  | .finite a => .finite (Frac.ofInt a.ceil)

/-- JavaScript Math.round: to nearest, ties toward +∞, computed on the
exact value (per ECMA-262 Math.round is exact, not x+0.5 in binary64). -/
def jsRound : JSNum → JSNum
  | .nan => .nan
  | .inf s => .inf s
  | .finite a => .finite (Frac.ofInt a.rndHalfUp)

/-- JavaScript Math.abs. -/
def jsAbs : JSNum → JSNum
  | .nan => .nan
  | .inf _ => .inf false
  | .finite a => .finite a.abs

/-- Composite of Math.ceil and Math.log10 as used by the source
(`Math.ceil(Math.log10(x))` on a nonnegative argument).  ECMA-262 leaves
Math.log10 implementation-approximated; the composite is modelled as the
exact ceiling of the exact logarithm.  No verified claim exercises this
code path. -/
def jsCeilLog10 : JSNum → JSNum
  | .nan => .nan
  | .inf _ => .inf false
  | .finite a =>
    if a.num = 0 then .inf true
    else
      let z := a.abs.flog10
      if (Frac.pow10 z).veq a.abs then .finite (Frac.ofInt z)
      else .finite (Frac.ofInt (z + 1))

/-- Result of ECMAScript ToIntegerOrInfinity: an integer or an infinity. -/
inductive IntOrInf where
  | int : Int → IntOrInf
  | posInf : IntOrInf
  | negInf : IntOrInf
deriving DecidableEq, Repr

/-- ECMAScript ToIntegerOrInfinity of a number (NaN becomes 0). -/
def jsToIntOrInf : JSNum → IntOrInf
  | .nan => .int 0
  | .inf s => if s then .negInf else .posInf
  | .finite a => .int a.trunc

/-- Number.isFinite. -/
def jsIsFinite : JSNum → Bool
  | .finite _ => true
  | _ => false

/-- BigInt(number): exact conversion, RangeError unless the number is an
integer-valued finite double. -/
def jsBigIntOfNum : JSNum → Except JSErr Int
  | .nan => .error .rangeError
  | .inf _ => .error .rangeError
  | .finite a => if a.isInt then .ok a.floor else .error .rangeError

/-! JavaScript string-to-number and number-to-string conversions.  All
string work is done on `List Char` so that the kernel can evaluate it. -/

/-- Decimal digit character. -/
def digitChar (d : Nat) : Char := Char.ofNat (48 + d)

/-- Decimal digits of a natural number, most significant first. -/
def natDigitsAux : Nat → Nat → List Char
  | 0, _ => []
  | fuel + 1, n => if n = 0 then [] else natDigitsAux fuel (n / 10) ++ [digitChar (n % 10)]

/-- Decimal string of a natural number. -/
def natToChars (n : Nat) : List Char :=
  if n = 0 then ['0'] else natDigitsAux n n

/-- Characters treated as whitespace by ECMAScript ToNumber trimming. -/
def isJsWhite (c : Char) : Bool :=
  c = ' ' || c = '\t' || c = '\n' || c = '\r' || c.toNat = 11 || c.toNat = 12 ||
  c.toNat = 0xA0 || c.toNat = 0xFEFF

/-- Parse a run of leading decimal digits: value, digit count, rest. -/
def parseDigitRun : List Char → Nat → Nat → Nat × Nat × List Char
  | [], acc, k => (acc, k, [])
  | c :: cs, acc, k =>
    if c.isDigit then parseDigitRun cs (10 * acc + (c.toNat - 48)) (k + 1)
    else (acc, k, c :: cs)

/-- Numeric value of a parsed decimal literal
sign·(int.frac)·10^(esign·exp), rounded to binary64. -/
def decLiteralValue (neg : Bool) (intPart frac : Nat) (fcnt : Nat)
    (eneg : Bool) (exp : Nat) : JSNum :=
  let mag : Int := (intPart * 10 ^ fcnt + frac : Nat)
  let num : Int := if neg then -mag else mag
  let exp10 : Int := (if eneg then -(exp : Int) else (exp : Int)) - fcnt
  f64ofFrac (Frac.mul ⟨num, 1, by norm_num⟩ (Frac.pow10 exp10))

/-- ECMAScript ToNumber on a string (StringNumericLiteral).  Whitespace is
trimmed; the empty string is 0; an optional sign is followed by Infinity
or by a decimal literal with optional fraction and exponent; anything
else gives NaN.  The hexadecimal, octal and binary literal forms are not
modelled (they would yield finite values; no verified claim involves
them). -/
def jsStringToNumber (s : String) : JSNum :=
  let cs := ((s.data.dropWhile isJsWhite).reverse.dropWhile isJsWhite).reverse
  if cs.isEmpty then .finite (Frac.ofInt 0)
  else
    let (neg, body) :=
      match cs with
      | '-' :: t => (true, t)
      | '+' :: t => (false, t)
      | t => (false, t)
    if body = ['I', 'n', 'f', 'i', 'n', 'i', 't', 'y'] then .inf neg
    else
      let (ipart, icnt, r1) := parseDigitRun body 0 0
      let (fpart, fcnt, r2) :=
        match r1 with
        | '.' :: t => parseDigitRun t 0 0
        | t => (0, 0, t)
      if icnt + fcnt = 0 then .nan
      else
        match r2 with
        | [] => decLiteralValue neg ipart fpart fcnt false 0
        | e :: t =>
          if e = 'e' || e = 'E' then
            let (eneg, t2) :=
              match t with
              | '-' :: u => (true, u)
              | '+' :: u => (false, u)
              | u => (false, u)
            let (exp, ecnt, r3) := parseDigitRun t2 0 0
            if ecnt = 0 || !r3.isEmpty then .nan
            else decLiteralValue neg ipart fpart fcnt eneg exp
          else .nan

/-- Truncated integer of a finite number (0 on NaN and infinities; used
only where the argument is known finite). -/
def jsTruncInt : JSNum → Int
  | .finite a => a.trunc
  | _ => 0

/-- ECMAScript ToString for a nonnegative integer-valued double of
magnitude at least 10^21 (the fallback branch of toFixed).  The exact
decimal expansion is produced; ECMA-262 would print the shortest
round-tripping digits in exponential form, which denotes the same value
but can differ textually.  No verified claim reaches this branch. -/
def jsLargeIntToChars (q : Frac) : List Char := natToChars q.floor.toNat

/-- Core of Number.prototype.toFixed for a nonnegative finite value and a
fraction-digit count f (ECMA-262: the integer n closest to q·10^f, ties
to the larger n, printed with a decimal point f digits from the end). -/
def toFixedCore (q : Frac) (f : Nat) : List Char :=
  if Frac.le (Frac.pow10 21) q then jsLargeIntToChars q
  else
    let n := (q.mul (Frac.pow10 f)).rndHalfUp
    let m := if n = 0 then ['0'] else natToChars n.toNat
    if f = 0 then m
    else
      let m2 := if m.length ≤ f then List.replicate (f + 1 - m.length) '0' ++ m else m
      let k := m2.length
      m2.take (k - f) ++ '.' :: m2.drop (k - f)

/-- Number.prototype.toFixed. -/
def jsToFixed (x : JSNum) (fArg : JSNum) : Except JSErr String :=
  match jsToIntOrInf fArg with
  | .posInf => .error .rangeError
  | .negInf => .error .rangeError
  | .int f =>
    if f < 0 || 100 < f then .error .rangeError
    else
      match x with
      | .nan => .ok "NaN"
      | .inf s => .ok (if s then "-Infinity" else "Infinity")
      | .finite q =>
        if q.num < 0 then .ok (String.mk ('-' :: toFixedCore q.abs f.toNat))
        else .ok (String.mk (toFixedCore q f.toNat))

/-- Core of Number.prototype.toPrecision for a positive finite value q and
precision p ≥ 1: choose e and n with 10^(p-1) ≤ n < 10^p such that
n·10^(e-p+1) is closest to q (ties to the larger n), then format per
ECMA-262 (exponential form when e < -6 or e ≥ p). -/
def toPrecisionCore (q : Frac) (p : Nat) : List Char :=
  let e0 := q.flog10
  let n0 := (q.div (Frac.pow10 (e0 - p + 1))).rndHalfUp
  let (n, e) : Int × Int :=
    if n0 = (10 ^ p : Nat) then (n0 / 10, e0 + 1) else (n0, e0)
  let m := natToChars n.toNat
  if e < -6 || (p : Int) ≤ e then
    let m2 := if p = 1 then m else m.take 1 ++ '.' :: m.drop 1
    let c := if e ≥ 0 then '+' else '-'
    m2 ++ 'e' :: c :: natToChars e.natAbs
  else if e = (p : Int) - 1 then m
  else if e ≥ 0 then
    m.take (e.toNat + 1) ++ '.' :: m.drop (e.toNat + 1)
  else
    '0' :: '.' :: List.replicate (-(e + 1)).toNat '0' ++ m

/-- Number.prototype.toPrecision (with a defined precision argument). -/
def jsToPrecision (x : JSNum) (pArg : JSNum) : Except JSErr String :=
  match x with
  | .nan => .ok "NaN"
  | .inf s => .ok (if s then "-Infinity" else "Infinity")
  | .finite q =>
    match jsToIntOrInf pArg with
    | .posInf => .error .rangeError
    | .negInf => .error .rangeError
    | .int p =>
      if p < 1 || 100 < p then .error .rangeError
      else
        if q.num = 0 then
          if p = 1 then .ok "0"
          else .ok (String.mk ('0' :: '.' :: List.replicate (p.toNat - 1) '0'))
        else if q.num < 0 then
          .ok (String.mk ('-' :: toPrecisionCore q.abs p.toNat))
        else
          .ok (String.mk (toPrecisionCore q p.toNat))

/-! Embedding of src/format-amounts.ts. -/

/-- MAX_INT64 from format-amounts.ts: (1n << 63n) - 1n. -/
def MAX_INT64 : Int := ((2 ^ 63 : Nat) : Int) - 1

/-- MIN_INT64 from format-amounts.ts: -MAX_INT64 - 1n. -/
def MIN_INT64 : Int := -MAX_INT64 - 1

/-- The double denoted by the literal 1e-99 (MIN_AMOUNT_DIVISOR). -/
def MIN_AMOUNT_DIVISOR : JSNum := f64ofFrac (Frac.pow10 (-99))

/-- The global assert helper: throws on a false condition. -/
def jsAssert (b : Bool) : Except JSErr Unit :=
  if b then .ok () else .error .assertionError

/-- A value of TypeScript type string | number. -/
inductive StrOrNum where
  | str : String → StrOrNum
  | num : JSNum → StrOrNum

/-- ECMAScript ToNumber on string | number. -/
def jsToNumber : StrOrNum → JSNum
  | .str s => jsStringToNumber s
  | .num x => x

/-- A value of TypeScript type number | bigint. -/
inductive NumOrBig where
  | num : JSNum → NumOrBig
  | big : Int → NumOrBig

/-- Embedding of stringToAmount (format-amounts.ts lines 5-12). -/
def stringToAmount (s : StrOrNum) (amountDivisor : JSNum) : Except JSErr Int := do
  jsAssert (jsGe amountDivisor (f64ofInt 0))
  let divisor := jsMax amountDivisor MIN_AMOUNT_DIVISOR
  let amount ← jsBigIntOfNum (jsRound (jsMul (jsToNumber s) divisor))
  if amount ≤ MIN_INT64 then return MIN_INT64
  if amount ≥ MAX_INT64 then return MAX_INT64
  return amount

/-- First index of a character in a list, or -1 (String.prototype.indexOf). -/
def charIndexOfAux : List Char → Char → Nat → Int
  | [], _, _ => -1
  | c :: cs, t, i => if c = t then (i : Int) else charIndexOfAux cs t (i + 1)

/-- Split a character list on every occurrence of a separator character
(String.prototype.split with a one-character separator). -/
def splitOnCharAux : List Char → Char → List Char → List (List Char)
  | [], _, acc => [acc.reverse]
  | c :: cs, t, acc =>
    if c = t then acc.reverse :: splitOnCharAux cs t []
    else splitOnCharAux cs t (c :: acc)

/-- Embedding of removeLeadingZeroes (format-amounts.ts lines 61-63): the
regex ^0*([\s\S]*)$ keeps everything after the maximal run of zeros. -/
def removeLeadingZeroes (s : List Char) : List Char := s.dropWhile (· = '0')

/-- Embedding of scientificToRegular (format-amounts.ts lines 33-59). -/
def scientificToRegular (s : String) : Except JSErr String :=
  let lower := s.data.map Char.toLower
  let parts := splitOnCharAux lower 'e' []
  let mantissa0 := parts.headD []
  let exponent := (parts.drop 1).headD ['0']
  let e0 : JSNum := jsStringToNumber (String.mk exponent)
  let (sign, mantissa1) :=
    match mantissa0 with
    | '-' :: t => (['-'], t)
    | '+' :: t => (([] : List Char), t)
    | t => ([], t)
  if !jsIsFinite e0 then .error .syntaxError
  else
    let idx : Int := charIndexOfAux mantissa1 '.' 0
    let (e1, mantissa) :=
      if idx > -1 then
        (jsSub e0 (f64ofInt ((mantissa1.length : Int) - idx - 1)),
         removeLeadingZeroes (mantissa1.take idx.toNat ++ mantissa1.drop (idx.toNat + 1)))
      else (e0, mantissa1)
    if jsGe e1 (f64ofInt 0) then
      .ok (String.mk (sign ++ mantissa ++ List.replicate (jsTruncInt e1).toNat '0'))
    else if jsGt e1 (f64ofInt (-(mantissa.length : Int))) then
      let cut := ((mantissa.length : Int) + jsTruncInt e1).toNat
      .ok (String.mk (sign ++ mantissa.take cut ++ '.' :: mantissa.drop cut))
    else
      .ok (String.mk (sign ++ '0' :: '.' ::
        List.replicate (-(mantissa.length : Int) - jsTruncInt e1).toNat '0' ++ mantissa))

/-- Embedding of amountToString (format-amounts.ts lines 14-31). -/
def amountToString (value : Int) (amountDivisor : JSNum) (decimalPlaces : NumOrBig) :
    Except JSErr String := do
  jsAssert (jsGe amountDivisor (f64ofInt 0))
  let divisor := jsMax amountDivisor MIN_AMOUNT_DIVISOR
  let dp : JSNum :=
    match decimalPlaces with
    | .big n => f64ofInt n
    | .num x => x
  let v := jsDiv (f64ofInt value) divisor
  let n := jsMin (jsCeil dp) (f64ofInt 20)
  let s ←
    if jsGe n (f64ofInt 0) then jsToFixed v n
    else do
      let numDigits := jsCeilLog10 (jsAbs v)
      let precision := jsMin (jsAdd numDigits n) (f64ofInt 100)
      if jsGe precision (f64ofInt 1) then jsToPrecision v precision else pure "0"
  scientificToRegular s

/-! Embedding of the log-stream synchronizer pieces (db-sync module,
src/unnamed/part_001). -/

/-- A log entry in canonical form (LogEntryV0).  The object URI has
already been made absolute by getLogPage.  The opaque `data` payload is
never inspected by the embedded code, so its type is a parameter. -/
structure LogEntryV0 (D : Type) where
  entryId : Int
  addedAt : String
  objectUri : String
  objectType : String
  objectUpdateId : Option Int
  deleted : Bool
  data : Option D

/-- The updateId field of ObjectUpdateInfo: a bigint or the marker
string **deleted**. -/
inductive UpdateId where
  | id : Int → UpdateId
  | deleted : UpdateId
deriving DecidableEq, Repr

/-- ObjectUpdateInfo (part_001 lines 67-72). -/
structure ObjectUpdateInfo (D : Type) where
  objectType : String
  updateId : Option UpdateId
  data : Option D
  recreated : Bool

/-- Lookup in a JavaScript Map modelled as an association list. -/
def mapGet {α : Type} (m : List (String × α)) (k : String) : Option α :=
  (m.find? (fun p => p.1 = k)).map (·.2)

/-- Map.prototype.set: replace the value in place when the key exists,
append otherwise (JavaScript Maps keep insertion order). -/
def mapSet {α : Type} (m : List (String × α)) (k : String) (v : α) : List (String × α) :=
  match m with
  | [] => [(k, v)]
  | (k1, v1) :: rest => if k1 = k then (k, v) :: rest else (k1, v1) :: mapSet rest k v

/-- Loop body of collectObjectUpdates: walks the entries, incrementing
the expected entry id before each comparison, exactly like the source's
`entryId != ++latestEntryId`. -/
def collectObjectUpdatesGo {D : Type} :
    Int → List (LogEntryV0 D) → List (String × ObjectUpdateInfo D) →
    Except JSErr (Int × List (String × ObjectUpdateInfo D))
  | latest, [], updates => .ok (latest, updates)
  | latest, e :: rest, updates =>
    let latest1 := latest + 1
    if e.entryId ≠ latest1 then .error .brokenLogStream
    else
      let existing := mapGet updates e.objectUri
      let recreated :=
        decide ((existing.map (·.updateId)) = some (some .deleted)) && !e.deleted
      collectObjectUpdatesGo latest1 rest (mapSet updates e.objectUri
        { objectType := e.objectType
          updateId := if e.deleted then some .deleted else e.objectUpdateId.map .id
          recreated := (existing.map (·.recreated)).getD false || recreated
          data := e.data })

/-- Embedding of collectObjectUpdates (part_001 lines 281-300). -/
def collectObjectUpdates {D : Type} (latestEntryId : Int) (logEntries : List (LogEntryV0 D)) :
    Except JSErr (Int × List (String × ObjectUpdateInfo D)) :=
  collectObjectUpdatesGo latestEntryId logEntries []

/-! Embedding of src/operations/utils.ts pieces. -/

/-- Embedding of calcParallelTimeout (utils.ts lines 23-26 and part_001
lines 233-236).  The constant `appConfig.serverApiTimeout` is defined in
a module outside the given sources, so it is taken as a parameter.  The
JavaScript expression associates as
((serverApiTimeout * ((n + 6) - 1)) / 6), all in binary64. -/
def calcParallelTimeout (serverApiTimeout : JSNum) (numberOfParallelRequests : JSNum) : JSNum :=
  let n : JSNum := f64ofInt 6
  jsDiv (jsMul serverApiTimeout (jsSub (jsAdd numberOfParallelRequests n) (f64ofInt 1))) n

/-- Outcome of an awaited promise, as reported by Promise.allSettled. -/
inductive SettledResult (α : Type) where
  | fulfilled : α → SettledResult α
  | rejected : JSErr → SettledResult α

/-- Whether an error is an HttpError with status 404 (`e instanceof
HttpError && e.status === 404`). -/
def isHttp404 : JSErr → Bool
  | .httpError s => s = 404
  | _ => false

/-- Whether an error is an HttpError with status 409 (`e instanceof
HttpError && e.status === 409`). -/
def isHttp409 : JSErr → Bool
  | .httpError s => s = 409
  | _ => false

/-- Whether an error is an HttpError of any status (`e instanceof
HttpError`). -/
def isHttpError : JSErr → Bool
  | .httpError _ => true
  | _ => false

/-- The rejection reasons of a settled batch, in order. -/
def settledErrors {α : Type} (results : List (SettledResult α)) : List JSErr :=
  results.filterMap fun r => match r with | .rejected e => some e | _ => none

/-- The fulfilled values of a settled batch, in order. -/
def settledValues {α : Type} (results : List (SettledResult α)) : List α :=
  results.filterMap fun r => match r with | .fulfilled v => some v | _ => none

/-- Embedding of settleAndIgnore404 (utils.ts lines 63-74): throw the
first rejection reason that is not an HTTP 404 error; otherwise return
the fulfilled responses in order. -/
def settleAndIgnore404 {α : Type} (results : List (SettledResult α)) :
    Except JSErr (List α) :=
  match (settledErrors results).find? (fun e => !isHttp404 e) with
  | some e => .error e
  | none => .ok (settledValues results)

/-! Embedding of ensureLoadedTransfers (part_001 lines 102-156).  The
paginated transfers-list iteration is abstracted as the delivered stream
of object references (pairs of a possibly relative URI and the URL of the
page it came from); the per-URI server fetch outcomes are a function
parameter.  The local database is modelled by the record-lookup function
and by returning the list of stored transfers. -/

/-- Result sub-record of a locally stored transfer record. -/
structure TransferResultRec where
  committedAmount : Int
deriving DecidableEq, Repr

/-- The parts of a locally stored transfer record that the bootstrap
reads. -/
structure TransferRecord where
  uri : String
  result : Option TransferResultRec
  aborted : Bool
deriving DecidableEq, Repr

/-- Wire data of a fetched transfer resource (only the declared type
participates in the embedded control flow; the URI stands for the rest of
the payload). -/
structure TransferData where
  type : String
  uri : String
deriving DecidableEq, Repr

/-- An object reference delivered by the paginated transfers list. -/
structure PageItemRef where
  uri : String
  pageUrl : String
deriving DecidableEq, Repr

/-- Element stored by db.storeTransfer during the bootstrap: either an
already known unconcluded record that was re-yielded, or a transfer
fetched from the server (its type tag rewritten to Transfer). -/
inductive StoredTransfer where
  | fromDb : TransferRecord → StoredTransfer
  | fromServer : TransferData → StoredTransfer
deriving DecidableEq, Repr

/-- Scheme detector used by the URL-resolution model. -/
def hasSchemeSep : List Char → Bool
  | [] => false
  | ':' :: '/' :: '/' :: _ => true
  | _ :: t => hasSchemeSep t

/-- Model of WHATWG new URL(uri, base).href: an absolute URI is returned
unchanged, a relative one is appended to the base.  No verified claim
depends on the precise resolution algorithm. -/
def resolveUri (uri base : String) : String :=
  if hasSchemeSep uri.data then uri else base ++ uri

/-- The TRANSFER_TYPE matcher /^Transfer$/ (canonical-objects). -/
def TRANSFER_TYPE_test (s : String) : Bool := s = "Transfer"

/-- Embedding of the local fetchTransfers helper of ensureLoadedTransfers
(part_001 lines 106-121): settle all fetches, ignore HTTP 404 rejections,
rethrow any other rejection, assert the declared types, and rewrite the
type tag. -/
def fetchTransfersInner (fetch : String → SettledResult TransferData) (uris : List String) :
    Except JSErr (List TransferData) := do
  let results := uris.map fetch
  match (settledErrors results).find? (fun e => !isHttp404 e) with
  | some e => .error e
  | none =>
    let responses := settledValues results
    let _ ← jsAssert (responses.all fun r => TRANSFER_TYPE_test r.type)
    .ok (responses.map fun r => { r with type := "Transfer" })

/-- Loop of the iterTransfers generator (part_001 lines 123-146),
carrying the batch of URIs waiting to be fetched (flushed at size 10 and
once more at the end). -/
def iterTransfersGo (fetch : String → SettledResult TransferData)
    (getRecord : String → Option TransferRecord) :
    List PageItemRef → List String → Except JSErr (List StoredTransfer)
  | [], batch => (fetchTransfersInner fetch batch).map (·.map .fromServer)
  | it :: rest, batch => do
    let transferUri := resolveUri it.uri it.pageUrl
    let record := getRecord transferUri
    let isConcluded :=
      match record with
      | some r => r.result.isSome || r.aborted
      | none => false
    let yields : List StoredTransfer :=
      match record with
      | some r =>
        if isConcluded && !r.aborted && decide ((r.result.map (·.committedAmount)) = some 0) then
          [.fromDb r]
        else []
      | none => []
    let batch1 := if !isConcluded then batch ++ [transferUri] else batch
    if batch1.length ≥ 10 then do
      let fetched ← fetchTransfersInner fetch batch1
      let more ← iterTransfersGo fetch getRecord rest []
      .ok (yields ++ fetched.map .fromServer ++ more)
    else do
      let more ← iterTransfersGo fetch getRecord rest batch1
      .ok (yields ++ more)

/-- The parts of the wallet record that ensureLoadedTransfers touches. -/
structure WalletStub where
  uri : String
  transfersListUri : String
  loadedTransfers : Bool
deriving DecidableEq, Repr

/-- Embedding of ensureLoadedTransfers (part_001 lines 102-156): when the
transfers were not yet loaded, store every yielded transfer and then
durably set loadedTransfers. -/
def ensureLoadedTransfers (wallet : WalletStub) (pageItems : List PageItemRef)
    (getRecord : String → Option TransferRecord)
    (fetch : String → SettledResult TransferData) :
    Except JSErr (WalletStub × List StoredTransfer) :=
  if wallet.loadedTransfers then .ok (wallet, [])
  else do
    let stored ← iterTransfersGo fetch getRecord pageItems []
    .ok ({ wallet with loadedTransfers := true }, stored)

/-! Embedding of the canonical-objects module (src/unnamed/part_000 lines
1886-2417).  The custom JSON parser of the application reads numeric wire
fields without a decimal point as bigints and the others as binary64
numbers, so a numeric wire field is a `WireNum`; `Number(x)` on it is
`jsNumberOfWire`. -/

/-- A numeric wire value: a bigint (integer literal) or a binary64 number
(literal with a decimal point). -/
inductive WireNum where
  | big : Int → WireNum
  | num : JSNum → WireNum

/-- ECMAScript Number() applied to a wire numeric value. -/
def jsNumberOfWire : WireNum → JSNum
  | .big n => f64ofInt n
  | .num x => x

/-- An HTTP response: effective URL plus parsed payload; buildUri
resolves a relative reference against the effective URL. -/
structure HttpResponse (α : Type) where
  url : String
  data : α

/-- Resolution helper exposed by responses (web-api buildUri). -/
def HttpResponse.buildUri {α : Type} (r : HttpResponse α) (uri : String) : String :=
  resolveUri uri r.url

/-- The type-compatibility matchers (part_000 lines 2394-2417); every
pattern is an exact match of the canonical name. -/
def WALLET_TYPE_test (s : String) : Bool := s = "Wallet"

/-- Matcher /^Creditor$/. -/
def CREDITOR_TYPE_test (s : String) : Bool := s = "Creditor"

/-- Matcher /^PinInfo$/. -/
def PIN_INFO_TYPE_test (s : String) : Bool := s = "PinInfo"

/-- Matcher /^DebtorInfo$/. -/
def DEBTOR_INFO_TYPE_test (s : String) : Bool := s = "DebtorInfo"

/-- Matcher /^ObjectReference$/. -/
def OBJECT_REFERENCE_TYPE_test (s : String) : Bool := s = "ObjectReference"

/-- Matcher /^AccountsList$/. -/
def ACCOUNTS_LIST_TYPE_test (s : String) : Bool := s = "AccountsList"

/-- Matcher /^Account$/. -/
def ACCOUNT_TYPE_test (s : String) : Bool := s = "Account"

/-- Matcher /^AccountInfo$/. -/
def ACCOUNT_INFO_TYPE_test (s : String) : Bool := s = "AccountInfo"

/-- Matcher /^AccountDisplay$/. -/
def ACCOUNT_DISPLAY_TYPE_test (s : String) : Bool := s = "AccountDisplay"

/-- Matcher /^AccountKnowledge$/. -/
def ACCOUNT_KNOWLEDGE_TYPE_test (s : String) : Bool := s = "AccountKnowledge"

/-- Matcher /^AccountExchange$/. -/
def ACCOUNT_EXCHANGE_TYPE_test (s : String) : Bool := s = "AccountExchange"

/-- Matcher /^AccountLedger$/. -/
def ACCOUNT_LEDGER_TYPE_test (s : String) : Bool := s = "AccountLedger"

/-- Matcher /^AccountConfig$/. -/
def ACCOUNT_CONFIG_TYPE_test (s : String) : Bool := s = "AccountConfig"

/-- Matcher /^CurrencyPeg$/. -/
def CURRENCY_PEG_TYPE_test (s : String) : Bool := s = "CurrencyPeg"

/-- Matcher /^TransfersList$/. -/
def TRANSFERS_LIST_TYPE_test (s : String) : Bool := s = "TransfersList"

/-- Matcher /^LedgerEntry$/. -/
def LEDGER_ENTRY_TYPE_test (s : String) : Bool := s = "LedgerEntry"

/-- Matcher /^PaginatedList$/ (LEDGER_ENTRIES_LIST_TYPE). -/
def LEDGER_ENTRIES_LIST_TYPE_test (s : String) : Bool := s = "PaginatedList"

/-- Matcher /^TransferResult$/. -/
def TRANSFER_RESULT_TYPE_test (s : String) : Bool := s = "TransferResult"

/-- Matcher /^TransferError$/. -/
def TRANSFER_ERROR_TYPE_test (s : String) : Bool := s = "TransferError"

/-- Matcher /^TransferOptions$/. -/
def TRANSFER_OPTIONS_TYPE_test (s : String) : Bool := s = "TransferOptions"

/-- Matcher /^CommittedTransfer$/. -/
def COMMITTED_TRANSFER_TYPE_test (s : String) : Bool := s = "CommittedTransfer"

/-- Embedding of matchType (part_000 lines 2383-2387).  A missing type
field reaches the matcher as the string coercion of undefined. -/
def matchType (matcher : String → Bool) (objType : String) : Except JSErr Unit :=
  if matcher objType then .ok () else .error .wrongObjectType

/-- String coercion of a possibly missing string field (RegExp.test
converts undefined to the string undefined). -/
def strOfOpt (t : Option String) : String := t.getD "undefined"

/-- Wire form of a DebtorInfo sub-object. -/
structure WireDebtorInfo where
  type : Option String
  iri : String
  sha256 : Option String
  contentType : Option String

/-- Wire form of a CurrencyPeg sub-object. -/
structure WireCurrencyPeg where
  type : Option String
  accountUri : String
  exchangeRate : WireNum

/-- Wire form of the paginated-list reference inside an AccountLedger. -/
structure WirePaginatedListRef where
  type : Option String
  itemsType : Option String
  first : String

/-- Wire form of an AccountDisplay payload. -/
structure WireAccountDisplay where
  type : Option String
  uri : String
  accountUri : String
  amountDivisor : WireNum
  decimalPlaces : Int
  debtorName : Option String
  knownDebtor : Bool
  unit : Option String
  latestUpdateId : Int

/-- Wire form of an AccountConfig payload. -/
structure WireAccountConfig where
  type : Option String
  uri : String
  accountUri : String
  negligibleAmount : WireNum
  scheduledForDeletion : Bool
  latestUpdateId : Int

/-- Wire form of an AccountExchange payload. -/
structure WireAccountExchange where
  type : Option String
  uri : String
  accountUri : String
  peg : Option WireCurrencyPeg
  policy : Option String
  minPrincipal : Int
  maxPrincipal : Int
  latestUpdateId : Int

/-- Wire form of an AccountKnowledge payload. -/
structure WireAccountKnowledge where
  type : Option String
  uri : String
  accountUri : String
  interestRate : Option WireNum
  latestUpdateId : Int

/-- Wire form of an AccountInfo payload. -/
structure WireAccountInfo where
  type : Option String
  uri : String
  accountUri : String
  interestRate : Option WireNum
  debtorInfo : Option WireDebtorInfo
  latestUpdateId : Int

/-- Wire form of an AccountLedger payload. -/
structure WireAccountLedger where
  type : Option String
  uri : String
  accountUri : String
  principal : Int
  nextEntryId : Int
  entries : WirePaginatedListRef
  latestUpdateId : Int

/-- Wire form of an Account payload with its six embedded sub-objects. -/
structure WireAccount where
  type : Option String
  uri : String
  accountsListUri : String
  debtorUri : String
  config : WireAccountConfig
  exchange : WireAccountExchange
  knowledge : WireAccountKnowledge
  display : WireAccountDisplay
  info : WireAccountInfo
  ledger : WireAccountLedger
  latestUpdateId : Int

/-- Wire form of a TransferOptions sub-object. -/
structure WireTransferOptions where
  type : Option String

/-- Wire form of a TransferError sub-object. -/
structure WireTransferError where
  type : Option String
  errorCode : String

/-- Wire form of a TransferResult sub-object. -/
structure WireTransferResult where
  type : Option String
  committedAmount : Int
  error : Option WireTransferError

/-- Wire form of a Transfer payload. -/
structure WireTransfer where
  type : Option String
  uri : String
  transfersListUri : String
  amount : Int
  transferUuid : String
  options : WireTransferOptions
  result : Option WireTransferResult

/-- Wire form of a CommittedTransfer payload. -/
structure WireCommittedTransfer where
  type : Option String
  uri : String
  accountUri : String
  acquiredAmount : Int

/-- Wire form of a Creditor payload. -/
structure WireCreditor where
  type : Option String
  uri : String
  walletUri : String
  latestUpdateId : Int

/-- Wire form of a PinInfo payload. -/
structure WirePinInfo where
  type : Option String
  uri : String
  walletUri : String
  latestUpdateId : Int

/-- Canonical AccountDisplayV0. -/
structure AccountDisplayV0 where
  type : String
  uri : String
  accountUri : String
  amountDivisor : JSNum
  decimalPlaces : Int
  debtorName : Option String
  knownDebtor : Bool
  unit : Option String
  latestUpdateId : Int

/-- Canonical AccountConfigV0. -/
structure AccountConfigV0 where
  type : String
  uri : String
  accountUri : String
  negligibleAmount : JSNum
  scheduledForDeletion : Bool
  latestUpdateId : Int

/-- Canonical CurrencyPegV0. -/
structure CurrencyPegV0 where
  type : String
  accountUri : String
  exchangeRate : JSNum

/-- Canonical AccountExchangeV0. -/
structure AccountExchangeV0 where
  type : String
  uri : String
  accountUri : String
  peg : Option CurrencyPegV0
  policy : Option String
  minPrincipal : Int
  maxPrincipal : Int
  latestUpdateId : Int

/-- Canonical AccountKnowledgeV0. -/
structure AccountKnowledgeV0 where
  type : String
  uri : String
  accountUri : String
  interestRate : Option JSNum
  latestUpdateId : Int

/-- Canonical DebtorInfoV0. -/
structure DebtorInfoV0 where
  type : String
  iri : String
  sha256 : Option String
  contentType : Option String

/-- Canonical AccountInfoV0. -/
structure AccountInfoV0 where
  type : String
  uri : String
  accountUri : String
  interestRate : JSNum
  debtorInfo : Option DebtorInfoV0
  latestUpdateId : Int

/-- Canonical paginated-list reference of an AccountLedgerV0. -/
structure PaginatedListRefV0 where
  type : String
  itemsType : String
  first : String

/-- Canonical AccountLedgerV0. -/
structure AccountLedgerV0 where
  type : String
  uri : String
  accountUri : String
  principal : Int
  nextEntryId : Int
  entries : PaginatedListRefV0
  latestUpdateId : Int

/-- Canonical AccountV0. -/
structure AccountV0 where
  type : String
  uri : String
  accountsListUri : String
  debtorUri : String
  config : AccountConfigV0
  exchange : AccountExchangeV0
  knowledge : AccountKnowledgeV0
  display : AccountDisplayV0
  info : AccountInfoV0
  ledger : AccountLedgerV0
  latestUpdateId : Int

/-- Canonical TransferOptionsV0. -/
structure TransferOptionsV0 where
  type : String

/-- Canonical TransferErrorV0. -/
structure TransferErrorV0 where
  type : String
  errorCode : String

/-- Canonical TransferResultV0. -/
structure TransferResultV0 where
  type : String
  committedAmount : Int
  error : Option TransferErrorV0

/-- Canonical TransferV0. -/
structure TransferV0 where
  type : String
  uri : String
  transfersListUri : String
  amount : Int
  transferUuid : String
  options : TransferOptionsV0
  result : Option TransferResultV0

/-- Canonical CommittedTransferV0. -/
structure CommittedTransferV0 where
  type : String
  uri : String
  accountUri : String
  acquiredAmount : Int

/-- Canonical CreditorV0. -/
structure CreditorV0 where
  type : String
  uri : String
  walletUri : String
  latestUpdateId : Int

/-- Canonical PinInfoV0. -/
structure PinInfoV0 where
  type : String
  uri : String
  walletUri : String
  latestUpdateId : Int

/-- Embedding of makeAccountDisplay (part_000 lines 2109-2118). -/
def makeAccountDisplay (data : WireAccountDisplay) (baseUri : String) :
    Except JSErr AccountDisplayV0 := do
  let _ ← matchType ACCOUNT_DISPLAY_TYPE_test (data.type.getD "AccountDisplay")
  .ok { type := "AccountDisplay"
        uri := resolveUri data.uri baseUri
        accountUri := resolveUri data.accountUri baseUri
        amountDivisor := jsNumberOfWire data.amountDivisor
        decimalPlaces := data.decimalPlaces
        debtorName := data.debtorName
        knownDebtor := data.knownDebtor
        unit := data.unit
        latestUpdateId := data.latestUpdateId }

/-- Embedding of makeAccountConfig (part_000 lines 2120-2129). -/
def makeAccountConfig (data : WireAccountConfig) (baseUri : String) :
    Except JSErr AccountConfigV0 := do
  let _ ← matchType ACCOUNT_CONFIG_TYPE_test (data.type.getD "AccountConfig")
  .ok { type := "AccountConfig"
        uri := resolveUri data.uri baseUri
        accountUri := resolveUri data.accountUri baseUri
        negligibleAmount := jsNumberOfWire data.negligibleAmount
        scheduledForDeletion := data.scheduledForDeletion
        latestUpdateId := data.latestUpdateId }

/-- Embedding of makeAccountExchange (part_000 lines 2131-2146). -/
def makeAccountExchange (data : WireAccountExchange) (baseUri : String) :
    Except JSErr AccountExchangeV0 := do
  let _ ← matchType ACCOUNT_EXCHANGE_TYPE_test (data.type.getD "AccountExchange")
  let _ ← matchType CURRENCY_PEG_TYPE_test ((data.peg.bind (·.type)).getD "CurrencyPeg")
  .ok { type := "AccountExchange"
        uri := resolveUri data.uri baseUri
        accountUri := resolveUri data.accountUri baseUri
        peg := data.peg.map fun p =>
          { type := "CurrencyPeg"
            accountUri := resolveUri p.accountUri baseUri
            exchangeRate := jsNumberOfWire p.exchangeRate }
        policy := data.policy
        minPrincipal := data.minPrincipal
        maxPrincipal := data.maxPrincipal
        latestUpdateId := data.latestUpdateId }

/-- Embedding of makeAccountKnowledge (part_000 lines 2148-2157). -/
def makeAccountKnowledge (data : WireAccountKnowledge) (baseUri : String) :
    Except JSErr AccountKnowledgeV0 := do
  let _ ← matchType ACCOUNT_KNOWLEDGE_TYPE_test (data.type.getD "AccountKnowledge")
  .ok { type := "AccountKnowledge"
        uri := resolveUri data.uri baseUri
        accountUri := resolveUri data.accountUri baseUri
        interestRate := data.interestRate.map jsNumberOfWire
        latestUpdateId := data.latestUpdateId }

/-- Embedding of makeAccountInfo (part_000 lines 2159-2173).  The
interestRate field is always coerced with Number, so a missing wire value
would become NaN. -/
def makeAccountInfo (data : WireAccountInfo) (baseUri : String) :
    Except JSErr AccountInfoV0 := do
  let _ ← matchType ACCOUNT_INFO_TYPE_test (strOfOpt data.type)
  let _ ← matchType DEBTOR_INFO_TYPE_test ((data.debtorInfo.bind (·.type)).getD "DebtorInfo")
  .ok { type := "AccountInfo"
        uri := resolveUri data.uri baseUri
        accountUri := resolveUri data.accountUri baseUri
        interestRate := (data.interestRate.map jsNumberOfWire).getD .nan
        debtorInfo := data.debtorInfo.map fun d =>
          { type := "DebtorInfo", iri := d.iri, sha256 := d.sha256, contentType := d.contentType }
        latestUpdateId := data.latestUpdateId }

/-- Embedding of makeAccountLedger (part_000 lines 2175-2191). -/
def makeAccountLedger (data : WireAccountLedger) (baseUri : String) :
    Except JSErr AccountLedgerV0 := do
  let _ ← matchType ACCOUNT_LEDGER_TYPE_test (strOfOpt data.type)
  let _ ← matchType LEDGER_ENTRIES_LIST_TYPE_test (strOfOpt data.entries.type)
  let _ ← matchType LEDGER_ENTRY_TYPE_test (strOfOpt data.entries.itemsType)
  .ok { type := "AccountLedger"
        uri := resolveUri data.uri baseUri
        accountUri := resolveUri data.accountUri baseUri
        principal := data.principal
        nextEntryId := data.nextEntryId
        entries :=
          { type := "PaginatedList"
            itemsType := "LedgerEntry"
            first := resolveUri data.entries.first baseUri }
        latestUpdateId := data.latestUpdateId }

/-- Embedding of makeAccount (part_000 lines 2093-2107). -/
def makeAccount (response : HttpResponse WireAccount) : Except JSErr AccountV0 := do
  let data := response.data
  let _ ← matchType ACCOUNT_TYPE_test (strOfOpt data.type)
  let config ← makeAccountConfig data.config response.url
  let exchange ← makeAccountExchange data.exchange response.url
  let knowledge ← makeAccountKnowledge data.knowledge response.url
  let display ← makeAccountDisplay data.display response.url
  let info ← makeAccountInfo data.info response.url
  let ledger ← makeAccountLedger data.ledger response.url
  .ok { type := "Account"
        uri := data.uri
        accountsListUri := response.buildUri data.accountsListUri
        debtorUri := data.debtorUri
        config := config, exchange := exchange, knowledge := knowledge
        display := display, info := info, ledger := ledger
        latestUpdateId := data.latestUpdateId }

/-- Embedding of makeCreditor (part_000 lines 2047-2055). -/
def makeCreditor (response : HttpResponse WireCreditor) : Except JSErr CreditorV0 := do
  let data := response.data
  let _ ← matchType CREDITOR_TYPE_test (data.type.getD "Creditor")
  .ok { type := "Creditor"
        uri := data.uri
        walletUri := response.buildUri data.walletUri
        latestUpdateId := data.latestUpdateId }

/-- Embedding of makePinInfo (part_000 lines 2057-2065). -/
def makePinInfo (response : HttpResponse WirePinInfo) : Except JSErr PinInfoV0 := do
  let data := response.data
  let _ ← matchType PIN_INFO_TYPE_test (data.type.getD "PinInfo")
  .ok { type := "PinInfo"
        uri := data.uri
        walletUri := response.buildUri data.walletUri
        latestUpdateId := data.latestUpdateId }

/-- Embedding of makeTransfer (part_000 lines 2211-2234). -/
def makeTransfer (response : HttpResponse WireTransfer) : Except JSErr TransferV0 := do
  let data := response.data
  let _ ← matchType TRANSFER_TYPE_test (strOfOpt data.type)
  let _ ← matchType TRANSFER_OPTIONS_TYPE_test (data.options.type.getD "TransferOptions")
  let _ ← matchType TRANSFER_RESULT_TYPE_test ((data.result.bind (·.type)).getD "TransferResult")
  let _ ← matchType TRANSFER_ERROR_TYPE_test
    ((data.result.bind fun r => r.error.bind (·.type)).getD "TransferError")
  .ok { type := "Transfer"
        uri := data.uri
        transfersListUri := response.buildUri data.transfersListUri
        amount := data.amount
        transferUuid := data.transferUuid
        options := { type := "TransferOptions" }
        result := data.result.map fun r =>
          { type := "TransferResult"
            committedAmount := r.committedAmount
            error := r.error.map fun e => { type := "TransferError", errorCode := e.errorCode } } }

/-- Embedding of makeCommittedTransfer (part_000 lines 2236-2244). -/
def makeCommittedTransfer (response : HttpResponse WireCommittedTransfer) :
    Except JSErr CommittedTransferV0 := do
  let data := response.data
  let _ ← matchType COMMITTED_TRANSFER_TYPE_test (strOfOpt data.type)
  .ok { type := "CommittedTransfer"
        uri := data.uri
        accountUri := response.buildUri data.accountUri
        acquiredAmount := data.acquiredAmount }

/-- Embedding of getCanonicalType (part_000 lines 2346-2377). -/
def getCanonicalType (objectType : String) : Option String :=
  if ACCOUNT_TYPE_test objectType then some "Account"
  else if ACCOUNT_DISPLAY_TYPE_test objectType then some "AccountDisplay"
  else if ACCOUNT_KNOWLEDGE_TYPE_test objectType then some "AccountKnowledge"
  else if ACCOUNT_EXCHANGE_TYPE_test objectType then some "AccountExchange"
  else if ACCOUNT_LEDGER_TYPE_test objectType then some "AccountLedger"
  else if ACCOUNT_CONFIG_TYPE_test objectType then some "AccountConfig"
  else if ACCOUNT_INFO_TYPE_test objectType then some "AccountInfo"
  else if CREDITOR_TYPE_test objectType then some "Creditor"
  else if PIN_INFO_TYPE_test objectType then some "PinInfo"
  else if COMMITTED_TRANSFER_TYPE_test objectType then some "CommittedTransfer"
  else if TRANSFER_TYPE_test objectType then some "Transfer"
  else if ACCOUNTS_LIST_TYPE_test objectType then some "AccountsList"
  else if TRANSFERS_LIST_TYPE_test objectType then some "TransfersList"
  else none

/-- The duck-typed payload handed to makeLogObject: the union of all the
wire fields the eleven handled families read. -/
structure RawObject where
  type : Option String
  uri : String
  accountUri : String
  accountsListUri : String
  debtorUri : String
  walletUri : String
  transfersListUri : String
  amountDivisor : WireNum
  decimalPlaces : Int
  debtorName : Option String
  knownDebtor : Bool
  unit : Option String
  negligibleAmount : WireNum
  scheduledForDeletion : Bool
  peg : Option WireCurrencyPeg
  policy : Option String
  minPrincipal : Int
  maxPrincipal : Int
  interestRate : Option WireNum
  debtorInfo : Option WireDebtorInfo
  principal : Int
  nextEntryId : Int
  entries : WirePaginatedListRef
  config : WireAccountConfig
  exchange : WireAccountExchange
  knowledge : WireAccountKnowledge
  display : WireAccountDisplay
  info : WireAccountInfo
  ledger : WireAccountLedger
  amount : Int
  transferUuid : String
  options : WireTransferOptions
  result : Option WireTransferResult
  acquiredAmount : Int
  latestUpdateId : Int

/-- View of a raw payload as an AccountDisplay (duck typing). -/
def RawObject.asAccountDisplay (r : RawObject) : WireAccountDisplay :=
  { type := r.type, uri := r.uri, accountUri := r.accountUri
    amountDivisor := r.amountDivisor, decimalPlaces := r.decimalPlaces
    debtorName := r.debtorName, knownDebtor := r.knownDebtor, unit := r.unit
    latestUpdateId := r.latestUpdateId }

/-- View of a raw payload as an AccountConfig (duck typing). -/
def RawObject.asAccountConfig (r : RawObject) : WireAccountConfig :=
  { type := r.type, uri := r.uri, accountUri := r.accountUri
    negligibleAmount := r.negligibleAmount
    scheduledForDeletion := r.scheduledForDeletion
    latestUpdateId := r.latestUpdateId }

/-- View of a raw payload as an AccountExchange (duck typing). -/
def RawObject.asAccountExchange (r : RawObject) : WireAccountExchange :=
  { type := r.type, uri := r.uri, accountUri := r.accountUri
    peg := r.peg, policy := r.policy
    minPrincipal := r.minPrincipal, maxPrincipal := r.maxPrincipal
    latestUpdateId := r.latestUpdateId }

/-- View of a raw payload as an AccountKnowledge (duck typing). -/
def RawObject.asAccountKnowledge (r : RawObject) : WireAccountKnowledge :=
  { type := r.type, uri := r.uri, accountUri := r.accountUri
    interestRate := r.interestRate, latestUpdateId := r.latestUpdateId }

/-- View of a raw payload as an AccountInfo (duck typing). -/
def RawObject.asAccountInfo (r : RawObject) : WireAccountInfo :=
  { type := r.type, uri := r.uri, accountUri := r.accountUri
    interestRate := r.interestRate, debtorInfo := r.debtorInfo
    latestUpdateId := r.latestUpdateId }

/-- View of a raw payload as an AccountLedger (duck typing). -/
def RawObject.asAccountLedger (r : RawObject) : WireAccountLedger :=
  { type := r.type, uri := r.uri, accountUri := r.accountUri
    principal := r.principal, nextEntryId := r.nextEntryId
    entries := r.entries, latestUpdateId := r.latestUpdateId }

/-- View of a raw payload as an Account (duck typing). -/
def RawObject.asAccount (r : RawObject) : WireAccount :=
  { type := r.type, uri := r.uri, accountsListUri := r.accountsListUri
    debtorUri := r.debtorUri
    config := r.config, exchange := r.exchange, knowledge := r.knowledge
    display := r.display, info := r.info, ledger := r.ledger
    latestUpdateId := r.latestUpdateId }

/-- View of a raw payload as a Creditor (duck typing). -/
def RawObject.asCreditor (r : RawObject) : WireCreditor :=
  { type := r.type, uri := r.uri, walletUri := r.walletUri
    latestUpdateId := r.latestUpdateId }

/-- View of a raw payload as a PinInfo (duck typing). -/
def RawObject.asPinInfo (r : RawObject) : WirePinInfo :=
  { type := r.type, uri := r.uri, walletUri := r.walletUri
    latestUpdateId := r.latestUpdateId }

/-- View of a raw payload as a Transfer (duck typing). -/
def RawObject.asTransfer (r : RawObject) : WireTransfer :=
  { type := r.type, uri := r.uri, transfersListUri := r.transfersListUri
    amount := r.amount, transferUuid := r.transferUuid
    options := r.options, result := r.result }

/-- View of a raw payload as a CommittedTransfer (duck typing). -/
def RawObject.asCommittedTransfer (r : RawObject) : WireCommittedTransfer :=
  { type := r.type, uri := r.uri, accountUri := r.accountUri
    acquiredAmount := r.acquiredAmount }

/-- The canonical objects that can come out of makeLogObject. -/
inductive LogObject where
  | account : AccountV0 → LogObject
  | accountDisplay : AccountDisplayV0 → LogObject
  | accountConfig : AccountConfigV0 → LogObject
  | accountKnowledge : AccountKnowledgeV0 → LogObject
  | accountExchange : AccountExchangeV0 → LogObject
  | accountLedger : AccountLedgerV0 → LogObject
  | accountInfo : AccountInfoV0 → LogObject
  | creditor : CreditorV0 → LogObject
  | pinInfo : PinInfoV0 → LogObject
  | transfer : TransferV0 → LogObject
  | committedTransfer : CommittedTransferV0 → LogObject

/-- The canonical type tag carried by a produced log object. -/
def LogObject.tag : LogObject → String
  | .account a => a.type
  | .accountDisplay a => a.type
  | .accountConfig a => a.type
  | .accountKnowledge a => a.type
  | .accountExchange a => a.type
  | .accountLedger a => a.type
  | .accountInfo a => a.type
  | .creditor a => a.type
  | .pinInfo a => a.type
  | .transfer a => a.type
  | .committedTransfer a => a.type

/-- Embedding of makeLogObject (part_000 lines 2316-2344): a switch on
the canonical type of the declared payload type, falling through to
WrongObjectType for unhandled families (among them AccountsList and
TransfersList) and unrecognized types. -/
def makeLogObject (response : HttpResponse RawObject) : Except JSErr LogObject :=
  let data := response.data
  let ct := getCanonicalType (strOfOpt data.type)
  if ct = some "Account" then
    (makeAccount { url := response.url, data := data.asAccount }).map .account
  else if ct = some "AccountDisplay" then
    (makeAccountDisplay data.asAccountDisplay response.url).map .accountDisplay
  else if ct = some "AccountConfig" then
    (makeAccountConfig data.asAccountConfig response.url).map .accountConfig
  else if ct = some "AccountKnowledge" then
    (makeAccountKnowledge data.asAccountKnowledge response.url).map .accountKnowledge
  else if ct = some "AccountExchange" then
    (makeAccountExchange data.asAccountExchange response.url).map .accountExchange
  else if ct = some "AccountLedger" then
    (makeAccountLedger data.asAccountLedger response.url).map .accountLedger
  else if ct = some "AccountInfo" then
    (makeAccountInfo data.asAccountInfo response.url).map .accountInfo
  else if ct = some "Creditor" then
    (makeCreditor { url := response.url, data := data.asCreditor }).map .creditor
  else if ct = some "PinInfo" then
    (makePinInfo { url := response.url, data := data.asPinInfo }).map .pinInfo
  else if ct = some "Transfer" then
    (makeTransfer { url := response.url, data := data.asTransfer }).map .transfer
  else if ct = some "CommittedTransfer" then
    (makeCommittedTransfer { url := response.url, data := data.asCommittedTransfer }).map
      .committedTransfer
  else .error .wrongObjectType

/-! Embedding of AppState.createCreateAccountAction (app-state module,
src/unnamed/part_000 lines 462-483). -/

/-- The display sub-record of the accounts-map full data, as read by
createCreateAccountAction. -/
structure AccountDisplayDataStub where
  knownDebtor : Bool
deriving DecidableEq, Repr

/-- The accounts-map full-data view that createCreateAccountAction
consults. -/
structure AccountFullDataStub where
  display : AccountDisplayDataStub
deriving DecidableEq, Repr

/-- Observable outcome of createCreateAccountAction: either direct
navigation to an existing account view (no action record is created), or
creation of a CreateAccount action record with the parsed URIs (followed
by navigation to the new action). -/
inductive CreateAccountOutcome where
  | navigatedToAccount : String → CreateAccountOutcome
  | createdActionRecord : String → String → CreateAccountOutcome
deriving DecidableEq, Repr

/-- Embedding of AppState.createCreateAccountAction (part_000 lines
462-483).  parseCoinUri is defined outside the given sources, so its
outcome on the scanned coin URI is a parameter (it throws InvalidCoinUri
or returns the pair latestDebtorInfoUri, debtorIdentityUri); the two
accounts-map lookups are parameters as well.  The interaction-id guard
only suppresses the subsequent navigation, not the record creation, and
is not modelled. -/
def createCreateAccountAction
    (parseCoinUriResult : Except JSErr (String × String))
    (getAccountUri : String → Option String)
    (getAccountFullData : String → Option AccountFullDataStub) :
    Except JSErr CreateAccountOutcome := do
  let (latestDebtorInfoUri, debtorIdentityUri) ← parseCoinUriResult
  match getAccountUri debtorIdentityUri with
  | some existingAccountUri =>
    match (getAccountFullData existingAccountUri).map (·.display.knownDebtor) with
    | some true => .ok (.navigatedToAccount existingAccountUri)
    | _ => .ok (.createdActionRecord latestDebtorInfoUri debtorIdentityUri)
  | none => .ok (.createdActionRecord latestDebtorInfoUri debtorIdentityUri)

/-! Embedding of UserContext.resetPin (src/operations/index.ts lines
199-225). -/

/-- The PinInfo data returned by fetchPinInfo (only latestUpdateId is
read). -/
structure PinInfoData where
  latestUpdateId : Int
deriving DecidableEq, Repr

/-- The request body PATCHed to the PinInfo URI. -/
structure PinPatchRequest where
  type : String
  status : String
  latestUpdateId : Int
  newPin : String
deriving DecidableEq, Repr

/-- Outcome of one PATCH attempt: a response or a thrown error. -/
inductive PatchOutcome where
  | ok : HttpResponse WirePinInfo → PatchOutcome
  | err : JSErr → PatchOutcome

/-- The retry loop of resetPin.  attempt counts the PATCH attempts made
so far (each one re-reads the PinInfo resource first); attemptsLeft is
the remaining retry budget, decremented by the post-decrement in
`e.status === 409 && attemptsLeft--`, whose old value gates the retry.
Returns the trace of issued PATCH requests together with the canonical
object stored on success. -/
def resetPinLoop (fetchPinInfo : Nat → PinInfoData) (patch : Nat → PatchOutcome)
    (newPin : String) :
    Nat → Nat → Except JSErr (List PinPatchRequest × PinInfoV0)
  | attempt, attemptsLeft =>
    let pinInfo := fetchPinInfo attempt
    let requestBody : PinPatchRequest :=
      { type := "PinInfo", status := "on"
        latestUpdateId := pinInfo.latestUpdateId + 1, newPin := newPin }
    match patch attempt with
    | .ok response =>
      (makePinInfo response).map (fun stored => ([requestBody], stored))
    | .err e =>
      if isHttp409 e then
        match attemptsLeft with
        | left + 1 =>
          (resetPinLoop fetchPinInfo patch newPin (attempt + 1) left).map
            (fun r => (requestBody :: r.1, r.2))
        | 0 => .error e
      else .error e

/-- Embedding of UserContext.resetPin (index.ts lines 199-225): run the
retry loop with a budget of 10 retries; the surrounding catch converts
any escaping HttpError into a ServerSessionError and rethrows everything
else unchanged. -/
def resetPin (fetchPinInfo : Nat → PinInfoData) (patch : Nat → PatchOutcome)
    (newPin : String) : Except JSErr (List PinPatchRequest × PinInfoV0) :=
  match resetPinLoop fetchPinInfo patch newPin 0 10 with
  | .error e => if isHttpError e then .error .serverSessionError else .error e
  | .ok r => .ok r

/-! Embedding of executeReadyTasks (src/operations/index.ts lines
120-154). -/

/-- A due task fetched from the task queue. -/
inductive TaskKind where
  | deleteTransfer : String → TaskKind
  | fetchDebtorInfo : String → TaskKind
deriving DecidableEq, Repr

/-- A task record with its queue id. -/
structure TaskRecordWithId where
  taskId : Nat
  kind : TaskKind
deriving DecidableEq, Repr

/-- A fetched debtor-info document (content is irrelevant here). -/
structure DocStub where
  sha256 : String
deriving DecidableEq, Repr

/-- Observable per-task effect: the task removed itself from the queue
(removeTask), or settled its fetch (settleFetchDebtorInfoTask, with the
document when one was obtained). -/
inductive TaskOutcome where
  | removedFromQueue : TaskOutcome
  | settledFetch : Option DocStub → TaskOutcome
deriving DecidableEq, Repr

/-- Embedding of createTaskExecutor (index.ts lines 121-145) applied to
one task with the batch timeout.  deleteResult gives the outcome of
server.delete on a transfer URI (none is success); fetchResult gives the
outcome of fetchDebtorInfoDocument on an IRI.  A DeleteTransfer task
swallows exactly the 404 HttpError; a FetchDebtorInfo task swallows
exactly DocumentFetchError; every other error propagates and the task
performs no queue operation. -/
def runTaskExecutor
    (deleteResult : String → JSNum → Option JSErr)
    (fetchResult : String → JSNum → Except JSErr DocStub)
    (timeout : JSNum) (task : TaskRecordWithId) : Except JSErr TaskOutcome :=
  match task.kind with
  | .deleteTransfer transferUri =>
    match deleteResult transferUri timeout with
    | none => .ok .removedFromQueue
    | some e => if isHttp404 e then .ok .removedFromQueue else .error e
  | .fetchDebtorInfo iri =>
    match fetchResult iri timeout with
    | .ok document => .ok (.settledFetch (some document))
    | .error .documentFetchError => .ok (.settledFetch none)
    | .error e => .error e

/-- First rejection reason of a settled batch of executor runs (the model
of a Promise.all rejection takes the first error in list order). -/
def firstExecErr (rs : List (Except JSErr TaskOutcome)) : Option JSErr :=
  rs.findSome? fun r => match r with | .error e => some e | _ => none

/-- Result of the batched drain loop: it finished with the per-round
traces, ran out of modelling fuel, or rejected with an error. -/
inductive RunResult (α : Type) where
  | finished : α → RunResult α
  | fuelExhausted : RunResult α
  | threw : JSErr → RunResult α
deriving DecidableEq, Repr

/-- The do-while loop of executeReadyTasks.  batches models
`getTasks(userId, new Date(), limit)` per round (the db task queue is
outside the given sources; per the spec listDue returns at most `limit`
due tasks).  Each fetched batch is executed in parallel with the shared
timeout `calcParallelTimeout(tasks.length)`; the loop repeats while the
fetched batch has at least `limit` elements.  The explicit fuel only
bounds the modelled recursion; the theorems show the result is reached
before any sufficiently large fuel runs out. -/
def executeReadyTasksGo (serverApiTimeout : JSNum)
    (batches : Nat → List TaskRecordWithId)
    (deleteResult : String → JSNum → Option JSErr)
    (fetchResult : String → JSNum → Except JSErr DocStub) :
    Nat → Nat → RunResult (List (List (Nat × TaskOutcome)))
  | 0, _ => .fuelExhausted
  | fuel + 1, round =>
    let limit := 100
    let tasks := batches round
    let timeout := calcParallelTimeout serverApiTimeout (f64ofNat tasks.length)
    let runs := tasks.map fun t =>
      (t.taskId, runTaskExecutor deleteResult fetchResult timeout t)
    match firstExecErr (runs.map (·.2)) with
    | some e => .threw e
    | none =>
      let trace := runs.filterMap fun p =>
        match p.2 with | .ok o => some (p.1, o) | .error _ => none
      if tasks.length ≥ limit then
        match executeReadyTasksGo serverApiTimeout batches deleteResult fetchResult fuel
            (round + 1) with
        | .finished rest => .finished (trace :: rest)
        | .fuelExhausted => .fuelExhausted
        | .threw e => .threw e
      else .finished [trace]

/-- Embedding of executeReadyTasks (index.ts lines 120-154). -/
def executeReadyTasks (serverApiTimeout : JSNum)
    (batches : Nat → List TaskRecordWithId)
    (deleteResult : String → JSNum → Option JSErr)
    (fetchResult : String → JSNum → Except JSErr DocStub)
    (fuel : Nat) : RunResult (List (List (Nat × TaskOutcome))) :=
  executeReadyTasksGo serverApiTimeout batches deleteResult fetchResult fuel 0

/-- Modelled from the spec: `timeout = base * ceil(n / maxParallelism)`
with maxParallelism = 6, in exact integer arithmetic (the ceiling of n/6
is (n+5)/6 in natural division). -/
def specParallelTimeout (base : Int) (n : Nat) : Int :=
  base * (((n + 5) / 6 : Nat) : Int)

/-- Benign fetch outcomes for the transfers bootstrap: every URI either
yields a fulfilled response whose declared type matches TRANSFER_TYPE, or
rejects with an HTTP 404 error. -/
def benignFetch (fetch : String → SettledResult TransferData) : Prop :=
  ∀ uri,
    match fetch uri with
    | .fulfilled d => TRANSFER_TYPE_test d.type = true
    | .rejected e => isHttp404 e = true

/-- Type condition enforced on an embedded currency peg
(`data.peg?.type ?? CurrencyPeg`). -/
def pegTypeOk (p : Option WireCurrencyPeg) : Bool :=
  CURRENCY_PEG_TYPE_test ((p.bind (·.type)).getD "CurrencyPeg")

/-- Type condition enforced on an embedded debtor info
(`data.debtorInfo?.type ?? DebtorInfo`). -/
def debtorInfoTypeOk (d : Option WireDebtorInfo) : Bool :=
  DEBTOR_INFO_TYPE_test ((d.bind (·.type)).getD "DebtorInfo")

/-- Type conditions enforced on the ledger entries list reference. -/
def entriesTypesOk (e : WirePaginatedListRef) : Bool :=
  LEDGER_ENTRIES_LIST_TYPE_test (strOfOpt e.type) &&
    LEDGER_ENTRY_TYPE_test (strOfOpt e.itemsType)

/-- Type conditions enforced on the typed sub-objects of a Transfer
payload (options, result, result error). -/
def transferSubTypesOk (t : WireTransfer) : Bool :=
  TRANSFER_OPTIONS_TYPE_test (t.options.type.getD "TransferOptions") &&
    TRANSFER_RESULT_TYPE_test ((t.result.bind (·.type)).getD "TransferResult") &&
    TRANSFER_ERROR_TYPE_test
      ((t.result.bind fun r => r.error.bind (·.type)).getD "TransferError")

/-- Type conditions enforced on the six embedded sub-objects of an
Account payload (and on their own nested typed sub-objects). -/
def accountSubTypesOk (a : WireAccount) : Bool :=
  ACCOUNT_CONFIG_TYPE_test (a.config.type.getD "AccountConfig") &&
    (ACCOUNT_EXCHANGE_TYPE_test (a.exchange.type.getD "AccountExchange") &&
      pegTypeOk a.exchange.peg) &&
    ACCOUNT_KNOWLEDGE_TYPE_test (a.knowledge.type.getD "AccountKnowledge") &&
    ACCOUNT_DISPLAY_TYPE_test (a.display.type.getD "AccountDisplay") &&
    (ACCOUNT_INFO_TYPE_test (strOfOpt a.info.type) && debtorInfoTypeOk a.info.debtorInfo) &&
    (ACCOUNT_LEDGER_TYPE_test (strOfOpt a.ledger.type) && entriesTypesOk a.ledger.entries)

/-- The complete type-compatibility condition that makeLogObject
enforces: the declared top-level type must belong to one of the eleven
handled families, and every typed sub-object embedded in the payload
must in turn declare a compatible (or absent, where a default applies)
type. -/
def logObjectTypesOk (r : RawObject) : Bool :=
  let t := strOfOpt r.type
  if ACCOUNT_TYPE_test t then accountSubTypesOk r.asAccount
  else if ACCOUNT_DISPLAY_TYPE_test t then true
  else if ACCOUNT_KNOWLEDGE_TYPE_test t then true
  else if ACCOUNT_EXCHANGE_TYPE_test t then pegTypeOk r.peg
  else if ACCOUNT_LEDGER_TYPE_test t then entriesTypesOk r.entries
  else if ACCOUNT_CONFIG_TYPE_test t then true
  else if ACCOUNT_INFO_TYPE_test t then debtorInfoTypeOk r.debtorInfo
  else if CREDITOR_TYPE_test t then true
  else if PIN_INFO_TYPE_test t then true
  else if COMMITTED_TRANSFER_TYPE_test t then true
  else if TRANSFER_TYPE_test t then transferSubTypesOk r.asTransfer
  else false

/-- The condition stated by the original claim: the declared top-level
type matches a recognized pattern for one of the eleven understood
log-object families (Account and its six sub-objects, Creditor, PinInfo,
Transfer, CommittedTransfer). -/
def claimedFamilyMatch (r : RawObject) : Bool :=
  let t := strOfOpt r.type
  ACCOUNT_TYPE_test t || ACCOUNT_DISPLAY_TYPE_test t || ACCOUNT_CONFIG_TYPE_test t ||
    ACCOUNT_KNOWLEDGE_TYPE_test t || ACCOUNT_EXCHANGE_TYPE_test t ||
    ACCOUNT_LEDGER_TYPE_test t || ACCOUNT_INFO_TYPE_test t || CREDITOR_TYPE_test t ||
    PIN_INFO_TYPE_test t || TRANSFER_TYPE_test t || COMMITTED_TRANSFER_TYPE_test t

/-- Concrete payload for the C5 analysis: declared type Transfer (a
recognized family) but with an embedded TransferOptions sub-object that
declares the incompatible type Bogus. -/
def cexTransferPayload : RawObject :=
  { type := some "Transfer", uri := "https://x.example/t/1", accountUri := "a/1"
    accountsListUri := "al", debtorUri := "swpt:1", walletUri := "w"
    transfersListUri := "tl", amountDivisor := .big 100, decimalPlaces := 2
    debtorName := none, knownDebtor := false, unit := none
    negligibleAmount := .big 1, scheduledForDeletion := false, peg := none
    policy := none, minPrincipal := 0, maxPrincipal := 0, interestRate := none
    debtorInfo := none, principal := 0, nextEntryId := 1
    entries := { type := none, itemsType := none, first := "e" }
    config := { type := none, uri := "c", accountUri := "a", negligibleAmount := .big 0,
                scheduledForDeletion := false, latestUpdateId := 1 }
    exchange := { type := none, uri := "x", accountUri := "a", peg := none, policy := none,
                  minPrincipal := 0, maxPrincipal := 0, latestUpdateId := 1 }
    knowledge := { type := none, uri := "k", accountUri := "a", interestRate := none,
                   latestUpdateId := 1 }
    display := { type := none, uri := "d", accountUri := "a", amountDivisor := .big 100,
                 decimalPlaces := 2, debtorName := none, knownDebtor := false, unit := none,
                 latestUpdateId := 1 }
    info := { type := none, uri := "i", accountUri := "a", interestRate := none,
              debtorInfo := none, latestUpdateId := 1 }
    ledger := { type := none, uri := "l", accountUri := "a", principal := 0, nextEntryId := 1,
                entries := { type := none, itemsType := none, first := "e" },
                latestUpdateId := 1 }
    amount := 1000, transferUuid := "123e4567", options := { type := some "Bogus" }
    result := none, acquiredAmount := 0, latestUpdateId := 1 }

/-- Concrete payload for the C5 witness: a well-typed PinInfo object. -/
def pinRawSample : RawObject :=
  { cexTransferPayload with
    type := some "PinInfo", uri := "https://x.example/p", walletUri := "w"
    options := { type := some "TransferOptions" }, latestUpdateId := 3 }

/-- The canonical object that makeLogObject produces from pinRawSample. -/
def pinSampleObj : LogObject :=
  LogObject.pinInfo
    { type := "PinInfo", uri := "https://x.example/p"
      walletUri := "https://x.example/w", latestUpdateId := 3 }

/-! Theorems. -/

/-- Helper: every error of the collectObjectUpdates loop is
BrokenLogStream. -/
theorem collectGo_error_eq {D : Type} :
    ∀ (es : List (LogEntryV0 D)) (L : Int) (acc : List (String × ObjectUpdateInfo D))
      (e : JSErr), collectObjectUpdatesGo L es acc = .error e → e = .brokenLogStream := by
  intro es
  induction es with
  | nil => intro L acc e h; simp [collectObjectUpdatesGo] at h
  | cons x rest ih =>
    intro L acc e h
    simp only [collectObjectUpdatesGo] at h
    split at h
    · exact (Except.error.inj h).symm
    · exact ih _ _ _ h

/-- Helper: the collectObjectUpdates loop reports a broken stream exactly
when some entry deviates from the gap-free numbering continuing L. -/
theorem collectGo_broken_iff {D : Type} :
    ∀ (es : List (LogEntryV0 D)) (L : Int) (acc : List (String × ObjectUpdateInfo D)),
      (collectObjectUpdatesGo L es acc = .error .brokenLogStream ↔
        ∃ i, ∃ h : i < es.length, (es.get ⟨i, h⟩).entryId ≠ L + 1 + i) := by
  intro es
  induction es with
  | nil => intro L acc; simp [collectObjectUpdatesGo]
  | cons x rest ih =>
    intro L acc
    simp only [collectObjectUpdatesGo]
    by_cases hx : x.entryId = L + 1
    · rw [if_neg (by simp [hx])]
      rw [ih]
      constructor
      · rintro ⟨i, h, hne⟩
        refine ⟨i + 1, by simpa using Nat.succ_lt_succ h, ?_⟩
        simpa [List.get, Int.add_assoc, Int.add_comm, Int.add_left_comm,
          Nat.cast_add, Nat.cast_one] using (by push_cast; ring_nf; ring_nf at hne; exact hne :
            (rest.get ⟨i, h⟩).entryId ≠ L + 1 + ((i : Int) + 1))
      · rintro ⟨i, h, hne⟩
        match i, h with
        | 0, h => exact absurd (by simpa using hx) (by simpa using hne)
        | j + 1, h =>
          refine ⟨j, by simpa using Nat.lt_of_succ_lt_succ h, ?_⟩
          have : (x :: rest).get ⟨j + 1, h⟩ = rest.get ⟨j, Nat.lt_of_succ_lt_succ h⟩ := rfl
          rw [this] at hne
          intro hc
          apply hne
          rw [hc]
          push_cast
          ring
    · rw [if_pos (by simpa using hx)]
      constructor
      · intro _
        exact ⟨0, by simp, by simpa using hx⟩
      · intro _; rfl

/-- C1: collectObjectUpdates throws BrokenLogStream exactly when some
entry breaks the gap-free numbering (the first entry must be L+1, each
successor one more than its predecessor); the only error it can throw is
BrokenLogStream; and since a thrown `Except.error` carries no updates
map, no entry of a broken batch is applied — on a successful return the
whole batch was gap-free. -/
theorem collectObjectUpdates_broken_iff {D : Type} (L : Int) (es : List (LogEntryV0 D)) :
    (collectObjectUpdates L es = .error .brokenLogStream ↔
      ∃ i, ∃ h : i < es.length, (es.get ⟨i, h⟩).entryId ≠ L + 1 + i) ∧
    (∀ e, collectObjectUpdates L es = .error e → e = .brokenLogStream) ∧
    (∀ res, collectObjectUpdates L es = .ok res →
      ∀ i (h : i < es.length), (es.get ⟨i, h⟩).entryId = L + 1 + i) := by
  refine ⟨collectGo_broken_iff es L [], fun e h => collectGo_error_eq es L [] e h, ?_⟩
  intro res hok i h
  by_contra hne
  have hbroken := (collectGo_broken_iff es L []).mpr ⟨i, h, hne⟩
  rw [collectObjectUpdates] at hok
  rw [hok] at hbroken
  exact absurd hbroken (by simp)

/-- C1 witness: a batch starting at entry id 5 after latest entry 0 is
reported as a broken stream. -/
theorem collectObjectUpdates_broken_iff_witness :
    collectObjectUpdates (D := Unit) 0
      [{ entryId := 5, addedAt := "t", objectUri := "u", objectType := "Creditor",
         objectUpdateId := none, deleted := false, data := none }] =
      .error .brokenLogStream :=
  (collectObjectUpdates_broken_iff 0 _).1.mpr ⟨0, by decide, by decide⟩

/-- C2: the formatting round trip at the spec's example: parsing the
string 12.34 with amountDivisor 100 yields the bigint 1234, and
formatting 1234 back with amountDivisor 100 and decimalPlaces 2 yields
exactly the string 12.34 (both computed through the exact binary64
model). -/
theorem amount_roundtrip_12_34 :
    stringToAmount (.str "12.34") (f64ofInt 100) = .ok 1234 ∧
    amountToString 1234 (f64ofInt 100) (.num (f64ofInt 2)) = .ok "12.34" := by
  constructor
  · decide
  · decide

/-- C3 counterexample: with serverApiTimeout 8000 and a fan-out of 2
parallel requests, the code computes 8000·7/6 (about 9333.33), not
8000·⌈2/6⌉ = 8000, so the claimed identity fails. -/
theorem calcParallelTimeout_claim_counterexample :
    jsStrictEq (calcParallelTimeout (f64ofInt 8000) (f64ofNat 2))
      (f64ofInt (specParallelTimeout 8000 2)) = false := by
  decide

/-- C3 amended: calcParallelTimeout evaluates
serverApiTimeout·(n + 6 - 1)/6 with exact binary64 division rather than
an integer ceiling; for the representative base 8000 and every fan-out
n ≤ 100 the computed timeout is at least base·⌈n/6⌉, and it equals
base·⌈n/6⌉ exactly when n ≡ 1 (mod 6). -/
theorem calcParallelTimeout_vs_spec :
    ∀ n : Nat, n < 101 →
      (jsGe (calcParallelTimeout (f64ofInt 8000) (f64ofNat n))
          (f64ofInt (specParallelTimeout 8000 n)) = true ∧
        (jsStrictEq (calcParallelTimeout (f64ofInt 8000) (f64ofNat n))
            (f64ofInt (specParallelTimeout 8000 n)) = true ↔ n % 6 = 1)) := by
  decide

/-- C3 witness: at a fan-out of 7 requests the bound is attained with
equality (7 ≡ 1 mod 6). -/
theorem calcParallelTimeout_vs_spec_witness :
    jsStrictEq (calcParallelTimeout (f64ofInt 8000) (f64ofNat 7))
      (f64ofInt (specParallelTimeout 8000 7)) = true :=
  ((calcParallelTimeout_vs_spec 7 (by norm_num)).2).mpr (by norm_num)

/-- C10: whenever stringToAmount returns a value (it throws a RangeError
on NaN or infinite products, e.g. for non-numeric strings), that value
lies in the signed 64-bit range, and out-of-range rounded products are
clamped to the bounds, as the two closed instances at ±2^70 show. -/
theorem stringToAmount_int64_range :
    (∀ (s : StrOrNum) (d : JSNum) (a : Int), stringToAmount s d = .ok a →
      MIN_INT64 ≤ a ∧ a ≤ MAX_INT64) ∧
    stringToAmount (.num (f64ofFrac (Frac.scale2 1 70))) (f64ofInt 1) = .ok MAX_INT64 ∧
    stringToAmount (.num (f64ofFrac (Frac.scale2 (-1) 70))) (f64ofInt 1) = .ok MIN_INT64 := by
  refine ⟨?_, by decide, by decide⟩
  intro s d a h
  have hM : MAX_INT64 = 9223372036854775807 := by decide
  have hm : MIN_INT64 = -9223372036854775808 := by decide
  by_cases hge : jsGe d (f64ofInt 0) = true
  · cases hb : jsBigIntOfNum (jsRound (jsMul (jsToNumber s) (jsMax d MIN_AMOUNT_DIVISOR))) with
    | error e => simp [stringToAmount, jsAssert, hge, hb, bind, Except.bind] at h
    | ok amt =>
      simp only [stringToAmount, jsAssert, hge, if_true, hb, bind, Except.bind, pure,
        Except.pure] at h
      rw [hM, hm] at h ⊢
      split at h
      · simp only [Except.ok.injEq] at h
        omega
      · split at h
        · simp only [Except.ok.injEq] at h
          omega
        · simp only [Except.ok.injEq] at h
          rename_i h1 h2
          omega
  · simp [stringToAmount, jsAssert, hge, bind, Except.bind] at h

/-- C10 witness: the theorem applied at the concrete input 12.34 with
amountDivisor 100 (the returned amount 1234 is within the range). -/
theorem stringToAmount_int64_range_witness :
    MIN_INT64 ≤ (1234 : Int) ∧ (1234 : Int) ≤ MAX_INT64 :=
  stringToAmount_int64_range.1 (.str "12.34") (f64ofInt 100) 1234 (by decide)

/-- Helper: under benign fetch outcomes the inner fetchTransfers helper
never throws. -/
theorem fetchTransfersInner_ok (fetch : String → SettledResult TransferData)
    (hb : benignFetch fetch) (uris : List String) :
    ∃ ts, fetchTransfersInner fetch uris = .ok ts := by
  have herr : ∀ e ∈ settledErrors (uris.map fetch), isHttp404 e = true := by
    intro e he
    simp only [settledErrors, List.mem_filterMap, List.mem_map] at he
    obtain ⟨r, ⟨u, _, hu⟩, hr⟩ := he
    subst hu
    have hthis := hb u
    cases hfu : fetch u with
    | fulfilled d => rw [hfu] at hr; simp at hr
    | rejected e2 =>
      rw [hfu] at hr hthis
      simp only at hr hthis
      cases hr
      exact hthis
  have hfind : (settledErrors (uris.map fetch)).find? (fun e => !isHttp404 e) = none := by
    rw [List.find?_eq_none]
    intro x hx
    simp [herr x hx]
  have hall : (settledValues (uris.map fetch)).all (fun r => TRANSFER_TYPE_test r.type) = true := by
    rw [List.all_eq_true]
    intro d hd
    simp only [settledValues, List.mem_filterMap, List.mem_map] at hd
    obtain ⟨r, ⟨u, _, hu⟩, hr⟩ := hd
    subst hu
    have hthis := hb u
    cases hfu : fetch u with
    | fulfilled d2 =>
      rw [hfu] at hr hthis
      simp only at hr hthis
      cases hr
      exact hthis
    | rejected e2 => rw [hfu] at hr; simp at hr
  refine ⟨(settledValues (uris.map fetch)).map (fun r => { r with type := "Transfer" }), ?_⟩
  simp [fetchTransfersInner, hfind, hall, jsAssert, bind, Except.bind]

/-- Helper: under benign fetch outcomes the transfer iteration of the
bootstrap never throws, whatever batch it is carrying. -/
theorem iterTransfersGo_ok (fetch : String → SettledResult TransferData)
    (getRecord : String → Option TransferRecord) (hb : benignFetch fetch) :
    ∀ (items : List PageItemRef) (batch : List String),
      ∃ st, iterTransfersGo fetch getRecord items batch = .ok st := by
  intro items
  induction items with
  | nil =>
    intro batch
    obtain ⟨ts, hts⟩ := fetchTransfersInner_ok fetch hb batch
    exact ⟨ts.map .fromServer, by simp [iterTransfersGo, hts, Except.map]⟩
  | cons it rest ih =>
    intro batch
    have hmain : ∀ (B : List String) (Y : List StoredTransfer),
        ∃ st, (if B.length ≥ 10 then do
                  let fetched ← fetchTransfersInner fetch B
                  let more ← iterTransfersGo fetch getRecord rest []
                  Except.ok (Y ++ fetched.map .fromServer ++ more)
                else do
                  let more ← iterTransfersGo fetch getRecord rest B
                  Except.ok (Y ++ more)) = .ok st := by
      intro B Y
      by_cases hB : B.length ≥ 10
      · obtain ⟨ts, hts⟩ := fetchTransfersInner_ok fetch hb B
        obtain ⟨more, hmore⟩ := ih []
        rw [if_pos hB]
        rw [show (do
              let fetched ← fetchTransfersInner fetch B
              let more ← iterTransfersGo fetch getRecord rest []
              Except.ok (Y ++ fetched.map .fromServer ++ more) :
                Except JSErr (List StoredTransfer)) =
            (do
              let more ← iterTransfersGo fetch getRecord rest []
              Except.ok (Y ++ ts.map .fromServer ++ more)) from by rw [hts]; rfl]
        rw [show (do
              let more ← iterTransfersGo fetch getRecord rest []
              Except.ok (Y ++ ts.map .fromServer ++ more) :
                Except JSErr (List StoredTransfer)) =
            Except.ok (Y ++ ts.map .fromServer ++ more) from by rw [hmore]; rfl]
        exact ⟨_, rfl⟩
      · obtain ⟨more, hmore⟩ := ih B
        rw [if_neg hB]
        rw [show (do
              let more ← iterTransfersGo fetch getRecord rest B
              Except.ok (Y ++ more) : Except JSErr (List StoredTransfer)) =
            Except.ok (Y ++ more) from by rw [hmore]; rfl]
        exact ⟨_, rfl⟩
    exact hmain _ _

/-- C6: settleAndIgnore404 succeeds exactly when every rejection reason
is an HTTP 404 error, in which case it returns precisely the fulfilled
responses in their original order; it rethrows the first non-404
rejection reason.  Consequently a transfers bootstrap whose individual
fetches are all fulfilled (with the Transfer type) or rejected with 404
completes and durably sets loadedTransfers. -/
theorem settleAndIgnore404_spec :
    (∀ (α : Type) (results : List (SettledResult α)),
      ((∃ v, settleAndIgnore404 results = .ok v) ↔
        ∀ e ∈ settledErrors results, isHttp404 e = true) ∧
      (∀ v, settleAndIgnore404 results = .ok v → v = settledValues results) ∧
      (∀ e, settleAndIgnore404 results = .error e →
        isHttp404 e = false ∧ e ∈ settledErrors results)) ∧
    (∀ (wallet : WalletStub) (pageItems : List PageItemRef)
      (getRecord : String → Option TransferRecord)
      (fetch : String → SettledResult TransferData),
      wallet.loadedTransfers = false →
      benignFetch fetch →
      ∃ stored, ensureLoadedTransfers wallet pageItems getRecord fetch =
        .ok ({ wallet with loadedTransfers := true }, stored)) := by
  constructor
  · intro α results
    cases hf : (settledErrors results).find? (fun e => !isHttp404 e) with
    | some e =>
      have hp := List.find?_some hf
      have hm := List.mem_of_find?_eq_some hf
      simp only [Bool.not_eq_true', Bool.not_eq_false] at hp
      refine ⟨?_, ?_, ?_⟩
      · constructor
        · rintro ⟨v, hv⟩
          simp [settleAndIgnore404, hf] at hv
        · intro hall
          exact absurd (hall e hm) (by simp [hp])
      · intro v hv
        simp [settleAndIgnore404, hf] at hv
      · intro e2 he2
        simp only [settleAndIgnore404, hf, Except.error.injEq] at he2
        cases he2
        exact ⟨hp, hm⟩
    | none =>
      have hall := List.find?_eq_none.mp hf
      refine ⟨?_, ?_, ?_⟩
      · constructor
        · intro _
          intro e he
          have := hall e he
          simpa using this
        · intro _
          exact ⟨settledValues results, by simp [settleAndIgnore404, hf]⟩
      · intro v hv
        simp only [settleAndIgnore404, hf, Except.ok.injEq] at hv
        exact hv.symm
      · intro e he
        simp [settleAndIgnore404, hf] at he
  · intro wallet pageItems getRecord fetch hload hb
    obtain ⟨st, hst⟩ := iterTransfersGo_ok fetch getRecord hb pageItems []
    refine ⟨st, ?_⟩
    simp [ensureLoadedTransfers, hload, hst, bind, Except.bind]

/-- C6 witness: a one-item transfers list whose only transfer URI
rejects with HTTP 404 still completes the bootstrap and sets
loadedTransfers. -/
theorem settleAndIgnore404_spec_witness :
    ∃ stored,
      ensureLoadedTransfers { uri := "w", transfersListUri := "t", loadedTransfers := false }
        [{ uri := "https://x.example/t/1", pageUrl := "https://x.example/t" }]
        (fun _ => none) (fun _ => .rejected (.httpError 404)) =
        .ok ({ uri := "w", transfersListUri := "t", loadedTransfers := true }, stored) :=
  settleAndIgnore404_spec.2
    { uri := "w", transfersListUri := "t", loadedTransfers := false }
    [{ uri := "https://x.example/t/1", pageUrl := "https://x.example/t" }]
    (fun _ => none) (fun _ => .rejected (.httpError 404))
    rfl (fun _ => rfl)

/-- C7: when the accounts index resolves the scanned coin's debtor
identity to an existing account whose full data carries
display.knownDebtor = true, createCreateAccountAction navigates straight
to that account and creates no action record; and a CreateAccount action
record is created exactly when no such known account exists. -/
theorem createCreateAccountAction_spec :
    ∀ (parse : Except JSErr (String × String))
      (getUri : String → Option String)
      (getData : String → Option AccountFullDataStub)
      (latest debtorIdentity : String),
      parse = .ok (latest, debtorIdentity) →
      ((∀ uri, getUri debtorIdentity = some uri →
          (getData uri).map (fun d => d.display.knownDebtor) = some true →
          createCreateAccountAction parse getUri getData = .ok (.navigatedToAccount uri)) ∧
        (∀ l d, createCreateAccountAction parse getUri getData =
            .ok (.createdActionRecord l d) →
          l = latest ∧ d = debtorIdentity ∧
            ¬∃ uri, getUri debtorIdentity = some uri ∧
              (getData uri).map (fun d2 => d2.display.knownDebtor) = some true) ∧
        ((¬∃ uri, getUri debtorIdentity = some uri ∧
            (getData uri).map (fun d2 => d2.display.knownDebtor) = some true) →
          createCreateAccountAction parse getUri getData =
            .ok (.createdActionRecord latest debtorIdentity))) := by
  intro parse getUri getData latest debtorIdentity hp
  subst hp
  refine ⟨?_, ?_, ?_⟩
  · intro uri huri hdata
    simp [createCreateAccountAction, bind, Except.bind, huri, hdata]
  · intro l d h
    cases huri : getUri debtorIdentity with
    | none =>
      simp only [createCreateAccountAction, bind, Except.bind, huri, Except.ok.injEq,
        CreateAccountOutcome.createdActionRecord.injEq] at h
      refine ⟨h.1.symm, h.2.symm, ?_⟩
      rintro ⟨u, hu, _⟩
      simp at hu
    | some uri =>
      cases hdata : (getData uri).map (fun d2 => d2.display.knownDebtor) with
      | none =>
        simp only [createCreateAccountAction, bind, Except.bind, huri, hdata,
          Except.ok.injEq, CreateAccountOutcome.createdActionRecord.injEq] at h
        refine ⟨h.1.symm, h.2.symm, ?_⟩
        rintro ⟨u, hu, hd⟩
        simp only [Option.some.injEq] at hu
        subst hu
        rw [hdata] at hd
        simp at hd
      | some b =>
        cases b with
        | true =>
          simp only [createCreateAccountAction, bind, Except.bind, huri, hdata] at h
          simp at h
        | false =>
          simp only [createCreateAccountAction, bind, Except.bind, huri, hdata,
            Except.ok.injEq, CreateAccountOutcome.createdActionRecord.injEq] at h
          refine ⟨h.1.symm, h.2.symm, ?_⟩
          rintro ⟨u, hu, hd⟩
          simp only [Option.some.injEq] at hu
          subst hu
          rw [hdata] at hd
          simp at hd
  · intro hno
    cases huri : getUri debtorIdentity with
    | none => simp [createCreateAccountAction, bind, Except.bind, huri]
    | some uri =>
      cases hdata : (getData uri).map (fun d2 => d2.display.knownDebtor) with
      | none => simp [createCreateAccountAction, bind, Except.bind, huri, hdata]
      | some b =>
        cases b with
        | true => exact absurd ⟨uri, huri, hdata⟩ hno
        | false => simp [createCreateAccountAction, bind, Except.bind, huri, hdata]

/-- C7 witness: scanning a coin for a debtor with a locally known
account (knownDebtor = true) navigates to that account. -/
theorem createCreateAccountAction_spec_witness :
    createCreateAccountAction (.ok ("https://x.example/doc", "swpt:123"))
      (fun _ => some "https://x.example/a/1")
      (fun _ => some { display := { knownDebtor := true } }) =
      .ok (.navigatedToAccount "https://x.example/a/1") :=
  (createCreateAccountAction_spec (.ok ("https://x.example/doc", "swpt:123"))
      (fun _ => some "https://x.example/a/1")
      (fun _ => some { display := { knownDebtor := true } })
      "https://x.example/doc" "swpt:123" rfl).1
    "https://x.example/a/1" rfl rfl

/-- Helper: on a successful resetPin loop run that starts at a given
attempt index with a given remaining budget, at most budget+1 PATCH
requests are issued, and the i-th issued request is built from the
PinInfo freshly fetched just before that attempt. -/
theorem resetPinLoop_trace (fetchPinInfo : Nat → PinInfoData) (patch : Nat → PatchOutcome)
    (newPin : String) :
    ∀ (k attempt : Nat) (trace : List PinPatchRequest) (stored : PinInfoV0),
      resetPinLoop fetchPinInfo patch newPin attempt k = .ok (trace, stored) →
      trace.length ≤ k + 1 ∧
        ∀ i (h : i < trace.length), trace.get ⟨i, h⟩ =
          { type := "PinInfo", status := "on",
            latestUpdateId := (fetchPinInfo (attempt + i)).latestUpdateId + 1,
            newPin := newPin } := by
  intro k
  induction k with
  | zero =>
    intro attempt trace stored h
    rw [resetPinLoop] at h
    cases hp : patch attempt with
    | ok response =>
      rw [hp] at h
      simp only at h
      cases hm : makePinInfo response with
      | error e => rw [hm] at h; simp [Except.map] at h
      | ok pv =>
        rw [hm] at h
        simp only [Except.map, Except.ok.injEq, Prod.mk.injEq] at h
        obtain ⟨h1, _⟩ := h
        subst h1
        refine ⟨by simp, ?_⟩
        intro i hi
        have hi0 : i = 0 := by simp only [List.length_cons, List.length_nil] at hi; omega
        subst hi0
        simp
    | err e =>
      rw [hp] at h
      by_cases h9 : isHttp409 e
      · simp [h9] at h
      · simp [h9] at h
  | succ left ih =>
    intro attempt trace stored h
    rw [resetPinLoop] at h
    cases hp : patch attempt with
    | ok response =>
      rw [hp] at h
      simp only at h
      cases hm : makePinInfo response with
      | error e => rw [hm] at h; simp [Except.map] at h
      | ok pv =>
        rw [hm] at h
        simp only [Except.map, Except.ok.injEq, Prod.mk.injEq] at h
        obtain ⟨h1, _⟩ := h
        subst h1
        refine ⟨by simp only [List.length_cons, List.length_nil]; omega, ?_⟩
        intro i hi
        have hi0 : i = 0 := by simp only [List.length_cons, List.length_nil] at hi; omega
        subst hi0
        simp
    | err e =>
      rw [hp] at h
      by_cases h9 : isHttp409 e
      · simp only [h9, if_true] at h
        cases hrec : resetPinLoop fetchPinInfo patch newPin (attempt + 1) left with
        | error e2 => rw [hrec] at h; simp [Except.map] at h
        | ok r =>
          rw [hrec] at h
          simp only [Except.map, Except.ok.injEq, Prod.mk.injEq] at h
          obtain ⟨h1, _⟩ := h
          subst h1
          obtain ⟨hlen, hidx⟩ := ih (attempt + 1) r.1 r.2 (by rw [hrec])
          refine ⟨by simpa using Nat.succ_le_succ hlen, ?_⟩
          intro i hi
          match i with
          | 0 => simp
          | j + 1 =>
            have hj : j < r.1.length := by simpa using Nat.lt_of_succ_lt_succ hi
            have := hidx j hj
            simpa [Nat.add_assoc, Nat.add_comm, Nat.add_left_comm] using this
      · simp [h9] at h

/-- Helper: when every attempt gets an HTTP 409 conflict, the resetPin
loop terminates after exhausting its whole budget and rethrows the 409
error. -/
theorem resetPinLoop_allConflict (fetchPinInfo : Nat → PinInfoData)
    (patch : Nat → PatchOutcome) (newPin : String)
    (hall : ∀ i, patch i = .err (.httpError 409)) :
    ∀ (k attempt : Nat),
      resetPinLoop fetchPinInfo patch newPin attempt k = .error (.httpError 409) := by
  intro k
  induction k with
  | zero =>
    intro attempt
    rw [resetPinLoop]
    simp [hall attempt, isHttp409]
  | succ left ih =>
    intro attempt
    rw [resetPinLoop]
    simp [hall attempt, isHttp409, ih (attempt + 1), Except.map]

/-- C8: resetPin issues at most 11 PATCH attempts (one initial plus a
budget of 10 retries), each built from a freshly re-read PinInfo (its
latestUpdateId is the fetched one plus one); with endless 409 conflicts
the loop still terminates, exhausts the budget and surfaces
ServerSessionError; the caller never sees a raw HttpError (it is always
converted to ServerSessionError); and the loop retries only on 409: any
other patch failure is rethrown immediately from the loop. -/
theorem resetPin_spec :
    ∀ (fetchPinInfo : Nat → PinInfoData) (patch : Nat → PatchOutcome) (newPin : String),
      (∀ trace stored, resetPin fetchPinInfo patch newPin = .ok (trace, stored) →
        trace.length ≤ 11 ∧
          ∀ i (h : i < trace.length), trace.get ⟨i, h⟩ =
            { type := "PinInfo", status := "on",
              latestUpdateId := (fetchPinInfo i).latestUpdateId + 1,
              newPin := newPin }) ∧
      ((∀ i, patch i = .err (.httpError 409)) →
        resetPin fetchPinInfo patch newPin = .error .serverSessionError) ∧
      (∀ s, resetPin fetchPinInfo patch newPin ≠ .error (.httpError s)) ∧
      (∀ (attempt left : Nat) (e : JSErr), patch attempt = .err e → isHttp409 e = false →
        resetPinLoop fetchPinInfo patch newPin attempt left = .error e) := by
  intro fetchPinInfo patch newPin
  refine ⟨?_, ?_, ?_, ?_⟩
  · intro trace stored h
    cases hl : resetPinLoop fetchPinInfo patch newPin 0 10 with
    | error e =>
      rw [resetPin, hl] at h
      by_cases he : isHttpError e <;> simp [he] at h
    | ok r =>
      rw [resetPin, hl] at h
      simp only [Except.ok.injEq] at h
      obtain ⟨hlen, hidx⟩ :=
        resetPinLoop_trace fetchPinInfo patch newPin 10 0 trace stored (by rw [hl, h])
      exact ⟨hlen, fun i hi => by simpa using hidx i hi⟩
  · intro hall
    rw [resetPin, resetPinLoop_allConflict fetchPinInfo patch newPin hall 10 0]
    simp [isHttpError]
  · intro s
    cases hl : resetPinLoop fetchPinInfo patch newPin 0 10 with
    | error e =>
      rw [resetPin, hl]
      cases e <;> simp [isHttpError]
    | ok r => rw [resetPin, hl]; simp
  · intro attempt left e hp h9
    cases left with
    | zero => rw [resetPinLoop]; simp [hp, h9]
    | succ l => rw [resetPinLoop]; simp [hp, h9]

/-- C8 witness: with every attempt answered 409, resetPin returns a
ServerSessionError (after exhausting its retry budget). -/
theorem resetPin_spec_witness :
    resetPin (fun _ => { latestUpdateId := 7 }) (fun _ => .err (.httpError 409)) "1234" =
      .error .serverSessionError :=
  (resetPin_spec (fun _ => { latestUpdateId := 7 }) (fun _ => .err (.httpError 409))
    "1234").2.1 (fun _ => rfl)

/-- Helper: a batch whose tasks all succeed produces no batch-level
rejection. -/
theorem firstExecErr_none (tasks : List TaskRecordWithId)
    (F : TaskRecordWithId → Except JSErr TaskOutcome)
    (hok : ∀ t ∈ tasks, ∃ o, F t = .ok o) :
    firstExecErr ((tasks.map fun t => (t.taskId, F t)).map (·.2)) = none := by
  rw [firstExecErr, List.findSome?_eq_none]
  intro x hx
  simp only [List.map_map, List.mem_map] at hx
  obtain ⟨t, ht, hx2⟩ := hx
  obtain ⟨o, ho⟩ := hok t ht
  simp [← hx2, Function.comp, ho]

/-- Helper: the per-round trace of a fully successful batch lists
exactly the batch's task ids in order. -/
theorem traceIds_of_ok (tasks : List TaskRecordWithId)
    (F : TaskRecordWithId → Except JSErr TaskOutcome)
    (hok : ∀ t ∈ tasks, ∃ o, F t = .ok o) :
    (((tasks.map fun t => (t.taskId, F t)).filterMap fun p =>
        match p.2 with | .ok o => some (p.1, o) | .error _ => none).map Prod.fst) =
      tasks.map (·.taskId) := by
  induction tasks with
  | nil => simp
  | cons t rest ih =>
    obtain ⟨o, ho⟩ := hok t (by simp)
    simp only [List.map_cons, List.filterMap_cons, ho]
    simpa using ih (fun u hu => hok u (by simp [hu]))

/-- Helper: the drain loop finishes with exactly the batches up to and
including the first partial one, whenever the fuel exceeds that count
and every involved task succeeds. -/
theorem executeGo_finishes (base : JSNum) (batches : Nat → List TaskRecordWithId)
    (del : String → JSNum → Option JSErr) (fetchD : String → JSNum → Except JSErr DocStub) :
    ∀ (k round fuel : Nat),
      (∀ i, i < k → 100 ≤ (batches (round + i)).length) →
      (batches (round + k)).length < 100 →
      (∀ i, i ≤ k → ∀ t ∈ batches (round + i), ∃ o,
        runTaskExecutor del fetchD
          (calcParallelTimeout base (f64ofNat (batches (round + i)).length)) t = .ok o) →
      k < fuel →
      ∃ rounds, executeReadyTasksGo base batches del fetchD fuel round = .finished rounds ∧
        rounds.length = k + 1 ∧
        ∀ i (h : i < rounds.length),
          (rounds.get ⟨i, h⟩).map Prod.fst = (batches (round + i)).map (·.taskId) := by
  intro k
  induction k with
  | zero =>
    intro round fuel hfull hpartial hok hfuel
    match fuel, hfuel with
    | f + 1, _ =>
      have hok0 := hok 0 (by omega)
      simp only [Nat.add_zero] at hok0 hpartial
      have hnone := firstExecErr_none (batches round)
        (runTaskExecutor del fetchD (calcParallelTimeout base (f64ofNat (batches round).length)))
        hok0
      have hids := traceIds_of_ok (batches round)
        (runTaskExecutor del fetchD (calcParallelTimeout base (f64ofNat (batches round).length)))
        hok0
      refine ⟨[((batches round).map fun t =>
          (t.taskId, runTaskExecutor del fetchD
            (calcParallelTimeout base (f64ofNat (batches round).length)) t)).filterMap fun p =>
          match p.2 with | .ok o => some (p.1, o) | .error _ => none], ?_, by simp, ?_⟩
      · simp only [executeReadyTasksGo]
        rw [hnone]
        rw [if_neg (by omega)]
      · intro i hi
        have hi0 : i = 0 := by simp only [List.length_cons, List.length_nil] at hi; omega
        subst hi0
        simpa using hids
  | succ k2 ih =>
    intro round fuel hfull hpartial hok hfuel
    match fuel, hfuel with
    | f + 1, _ =>
      have hok0 := hok 0 (by omega)
      simp only [Nat.add_zero] at hok0
      have hnone := firstExecErr_none (batches round)
        (runTaskExecutor del fetchD (calcParallelTimeout base (f64ofNat (batches round).length)))
        hok0
      have hids := traceIds_of_ok (batches round)
        (runTaskExecutor del fetchD (calcParallelTimeout base (f64ofNat (batches round).length)))
        hok0
      have hlen0 : 100 ≤ (batches round).length := by simpa using hfull 0 (by omega)
      obtain ⟨rest, hrest, hrestlen, hrestids⟩ :=
        ih (round + 1) f
          (fun i hi => by
            have h2 := hfull (i + 1) (by omega)
            have he : round + (i + 1) = round + 1 + i := by omega
            rwa [he] at h2)
          (by
            have he : round + (k2 + 1) = round + 1 + k2 := by omega
            rwa [he] at hpartial)
          (fun i hi t ht => by
            have he : round + 1 + i = round + (i + 1) := by omega
            rw [he] at ht ⊢
            exact hok (i + 1) (by omega) t ht)
          (by omega)
      refine ⟨(((batches round).map fun t =>
          (t.taskId, runTaskExecutor del fetchD
            (calcParallelTimeout base (f64ofNat (batches round).length)) t)).filterMap fun p =>
          match p.2 with | .ok o => some (p.1, o) | .error _ => none) :: rest, ?_,
          by simp [hrestlen], ?_⟩
      · simp only [executeReadyTasksGo]
        rw [hnone]
        rw [if_pos (by omega)]
        rw [hrest]
      · intro i hi
        match i with
        | 0 => simpa using hids
        | j + 1 =>
          have hj : j < rest.length := by simp only [List.length_cons] at hi; omega
          have h3 := hrestids j hj
          have he : round + 1 + j = round + (j + 1) := by omega
          rwa [he] at h3

/-- C9: executeReadyTasks drains full batches (length 100 or more) and
stops with the first partial batch: if batches 0..k-1 are full, batch k
is partial and every involved task succeeds, then for any fuel above k
the run finishes having executed exactly batches 0..k, each round's
trace listing that batch's task ids in order.  Moreover a DeleteTransfer
task removes itself from the queue exactly when the HTTP DELETE
succeeded or failed with 404 (already gone), and any other delete error
propagates without the task removing itself. -/
theorem executeReadyTasks_spec :
    (∀ (base : JSNum) (batches : Nat → List TaskRecordWithId)
      (del : String → JSNum → Option JSErr)
      (fetchD : String → JSNum → Except JSErr DocStub) (k fuel : Nat),
      (∀ i, i < k → 100 ≤ (batches i).length) →
      (batches k).length < 100 →
      (∀ i, i ≤ k → ∀ t ∈ batches i, ∃ o,
        runTaskExecutor del fetchD
          (calcParallelTimeout base (f64ofNat (batches i).length)) t = .ok o) →
      k < fuel →
      ∃ rounds, executeReadyTasks base batches del fetchD fuel = .finished rounds ∧
        rounds.length = k + 1 ∧
        ∀ i (h : i < rounds.length),
          (rounds.get ⟨i, h⟩).map Prod.fst = (batches i).map (·.taskId)) ∧
    (∀ (del : String → JSNum → Option JSErr)
      (fetchD : String → JSNum → Except JSErr DocStub)
      (timeout : JSNum) (id : Nat) (uri : String),
      (runTaskExecutor del fetchD timeout { taskId := id, kind := .deleteTransfer uri } =
          .ok .removedFromQueue ↔
        (del uri timeout = none ∨ del uri timeout = some (.httpError 404))) ∧
      (∀ e, del uri timeout = some e → isHttp404 e = false →
        runTaskExecutor del fetchD timeout { taskId := id, kind := .deleteTransfer uri } =
          .error e)) := by
  constructor
  · intro base batches del fetchD k fuel hfull hpartial hok hfuel
    have := executeGo_finishes base batches del fetchD k 0 fuel
      (fun i hi => by simpa using hfull i hi)
      (by simpa using hpartial)
      (fun i hi t ht => by
        have := hok i hi t (by simpa using ht)
        simpa using this)
      hfuel
    obtain ⟨rounds, h1, h2, h3⟩ := this
    exact ⟨rounds, h1, h2, fun i hi => by simpa using h3 i hi⟩
  · intro del fetchD timeout id uri
    constructor
    · constructor
      · intro h
        cases hd : del uri timeout with
        | none => exact Or.inl rfl
        | some e =>
          right
          simp only [runTaskExecutor, hd] at h
          by_cases h4 : isHttp404 e = true
          · cases e with
            | httpError s =>
              simp only [isHttp404, decide_eq_true_eq] at h4
              subst h4
              rfl
            | assertionError => simp [isHttp404] at h4
            | rangeError => simp [isHttp404] at h4
            | syntaxError => simp [isHttp404] at h4
            | typeError => simp [isHttp404] at h4
            | brokenLogStream => simp [isHttp404] at h4
            | wrongObjectType => simp [isHttp404] at h4
            | serverSessionError => simp [isHttp404] at h4
            | authenticationError => simp [isHttp404] at h4
            | documentFetchError => simp [isHttp404] at h4
            | invalidCoinUri => simp [isHttp404] at h4
            | otherError => simp [isHttp404] at h4
          · simp [h4] at h
      · intro h
        cases h with
        | inl h => simp [runTaskExecutor, h]
        | inr h => simp [runTaskExecutor, h, isHttp404]
    · intro e hd h4
      simp [runTaskExecutor, hd, h4]

/-- C9 witness: a single empty (hence partial) batch finishes in one
round with an empty trace, and a DeleteTransfer task whose DELETE gets a
404 removes itself from the queue. -/
theorem executeReadyTasks_spec_witness :
    (∃ rounds,
      executeReadyTasks (f64ofInt 8000) (fun _ => []) (fun _ _ => none)
        (fun _ _ => .error .documentFetchError) 1 = .finished rounds ∧
      rounds.length = 1 ∧
      ∀ i (h : i < rounds.length),
        (rounds.get ⟨i, h⟩).map Prod.fst = (([] : List TaskRecordWithId)).map (·.taskId)) ∧
    runTaskExecutor (fun _ _ => some (.httpError 404)) (fun _ _ => .error .documentFetchError)
      (f64ofInt 8000) { taskId := 1, kind := .deleteTransfer "https://x.example/t/1" } =
      .ok .removedFromQueue := by
  constructor
  · obtain ⟨rounds, h1, h2, h3⟩ :=
      executeReadyTasks_spec.1 (f64ofInt 8000) (fun _ => []) (fun _ _ => none)
        (fun _ _ => .error .documentFetchError) 0 1
        (fun i hi => by omega) (by simp) (fun i hi t ht => by simp at ht) (by omega)
    exact ⟨rounds, h1, h2, fun i hi => by simpa using h3 i hi⟩
  · exact (executeReadyTasks_spec.2 (fun _ _ => some (.httpError 404))
      (fun _ _ => .error .documentFetchError) (f64ofInt 8000) 1
      "https://x.example/t/1").1.mpr (Or.inr rfl)

/-- Helper: field content of a successful makeAccountDisplay run. -/
theorem makeAccountDisplay_ok_fields (d : WireAccountDisplay) (b : String)
    (o : AccountDisplayV0) (h : makeAccountDisplay d b = .ok o) :
    o.type = "AccountDisplay" ∧ o.amountDivisor = jsNumberOfWire d.amountDivisor ∧
      o.decimalPlaces = d.decimalPlaces := by
  by_cases hm : ACCOUNT_DISPLAY_TYPE_test (d.type.getD "AccountDisplay") = true
  · simp only [makeAccountDisplay, matchType, hm, if_true, bind, Except.bind,
      Except.ok.injEq] at h
    subst h
    exact ⟨rfl, rfl, rfl⟩
  · simp [makeAccountDisplay, matchType, hm, bind, Except.bind] at h

/-- Helper: field content of a successful makeAccountConfig run. -/
theorem makeAccountConfig_ok_fields (d : WireAccountConfig) (b : String)
    (o : AccountConfigV0) (h : makeAccountConfig d b = .ok o) :
    o.type = "AccountConfig" ∧ o.negligibleAmount = jsNumberOfWire d.negligibleAmount := by
  by_cases hm : ACCOUNT_CONFIG_TYPE_test (d.type.getD "AccountConfig") = true
  · simp only [makeAccountConfig, matchType, hm, if_true, bind, Except.bind,
      Except.ok.injEq] at h
    subst h
    exact ⟨rfl, rfl⟩
  · simp [makeAccountConfig, matchType, hm, bind, Except.bind] at h

/-- Helper: field content of a successful makeAccountExchange run. -/
theorem makeAccountExchange_ok_fields (d : WireAccountExchange) (b : String)
    (o : AccountExchangeV0) (h : makeAccountExchange d b = .ok o) :
    o.type = "AccountExchange" ∧
      o.peg.map (·.exchangeRate) = d.peg.map (fun p => jsNumberOfWire p.exchangeRate) ∧
      o.minPrincipal = d.minPrincipal ∧ o.maxPrincipal = d.maxPrincipal := by
  by_cases h1 : ACCOUNT_EXCHANGE_TYPE_test (d.type.getD "AccountExchange") = true
  · by_cases h2 : CURRENCY_PEG_TYPE_test ((d.peg.bind (·.type)).getD "CurrencyPeg") = true
    · simp only [makeAccountExchange, matchType, h1, h2, if_true, bind, Except.bind,
        Except.ok.injEq] at h
      subst h
      refine ⟨rfl, ?_, rfl, rfl⟩
      cases d.peg <;> simp
    · simp [makeAccountExchange, matchType, h1, h2, bind, Except.bind] at h
  · simp [makeAccountExchange, matchType, h1, bind, Except.bind] at h

/-- Helper: field content of a successful makeAccountKnowledge run. -/
theorem makeAccountKnowledge_ok_fields (d : WireAccountKnowledge) (b : String)
    (o : AccountKnowledgeV0) (h : makeAccountKnowledge d b = .ok o) :
    o.type = "AccountKnowledge" ∧ o.interestRate = d.interestRate.map jsNumberOfWire := by
  by_cases hm : ACCOUNT_KNOWLEDGE_TYPE_test (d.type.getD "AccountKnowledge") = true
  · simp only [makeAccountKnowledge, matchType, hm, if_true, bind, Except.bind,
      Except.ok.injEq] at h
    subst h
    exact ⟨rfl, rfl⟩
  · simp [makeAccountKnowledge, matchType, hm, bind, Except.bind] at h

/-- Helper: field content of a successful makeAccountInfo run. -/
theorem makeAccountInfo_ok_fields (d : WireAccountInfo) (b : String)
    (o : AccountInfoV0) (h : makeAccountInfo d b = .ok o) :
    o.type = "AccountInfo" ∧
      o.interestRate = (d.interestRate.map jsNumberOfWire).getD .nan := by
  by_cases h1 : ACCOUNT_INFO_TYPE_test (strOfOpt d.type) = true
  · by_cases h2 : DEBTOR_INFO_TYPE_test ((d.debtorInfo.bind (·.type)).getD "DebtorInfo") = true
    · simp only [makeAccountInfo, matchType, h1, h2, if_true, bind, Except.bind,
        Except.ok.injEq] at h
      subst h
      exact ⟨rfl, rfl⟩
    · simp [makeAccountInfo, matchType, h1, h2, bind, Except.bind] at h
  · simp [makeAccountInfo, matchType, h1, bind, Except.bind] at h

/-- Helper: field content of a successful makeAccountLedger run. -/
theorem makeAccountLedger_ok_fields (d : WireAccountLedger) (b : String)
    (o : AccountLedgerV0) (h : makeAccountLedger d b = .ok o) :
    o.type = "AccountLedger" ∧ o.principal = d.principal ∧
      o.nextEntryId = d.nextEntryId := by
  by_cases h1 : ACCOUNT_LEDGER_TYPE_test (strOfOpt d.type) = true
  · by_cases h2 : LEDGER_ENTRIES_LIST_TYPE_test (strOfOpt d.entries.type) = true
    · by_cases h3 : LEDGER_ENTRY_TYPE_test (strOfOpt d.entries.itemsType) = true
      · simp only [makeAccountLedger, matchType, h1, h2, h3, if_true, bind, Except.bind,
          Except.ok.injEq] at h
        subst h
        exact ⟨rfl, rfl, rfl⟩
      · simp [makeAccountLedger, matchType, h1, h2, h3, bind, Except.bind] at h
    · simp [makeAccountLedger, matchType, h1, h2, bind, Except.bind] at h
  · simp [makeAccountLedger, matchType, h1, bind, Except.bind] at h

/-- Helper: a successful makeAccount run succeeds on all six embedded
sub-objects and copies their canonical forms into the result. -/
theorem makeAccount_ok_elim (resp : HttpResponse WireAccount) (acc : AccountV0)
    (h : makeAccount resp = .ok acc) :
    ∃ oc ox okn od oi ol,
      makeAccountConfig resp.data.config resp.url = .ok oc ∧
      makeAccountExchange resp.data.exchange resp.url = .ok ox ∧
      makeAccountKnowledge resp.data.knowledge resp.url = .ok okn ∧
      makeAccountDisplay resp.data.display resp.url = .ok od ∧
      makeAccountInfo resp.data.info resp.url = .ok oi ∧
      makeAccountLedger resp.data.ledger resp.url = .ok ol ∧
      acc.type = "Account" ∧ acc.config = oc ∧ acc.exchange = ox ∧ acc.knowledge = okn ∧
      acc.display = od ∧ acc.info = oi ∧ acc.ledger = ol := by
  by_cases hm : ACCOUNT_TYPE_test (strOfOpt resp.data.type) = true
  case neg => simp [makeAccount, matchType, hm, bind, Except.bind] at h
  case pos =>
  simp only [makeAccount, matchType, hm, if_true, bind, Except.bind] at h
  cases hc : makeAccountConfig resp.data.config resp.url with
  | error e => rw [hc] at h; simp at h
  | ok oc =>
    rw [hc] at h
    simp only at h
    cases hx : makeAccountExchange resp.data.exchange resp.url with
    | error e => rw [hx] at h; simp at h
    | ok ox =>
      rw [hx] at h
      simp only at h
      cases hk : makeAccountKnowledge resp.data.knowledge resp.url with
      | error e => rw [hk] at h; simp at h
      | ok okn =>
        rw [hk] at h
        simp only at h
        cases hd : makeAccountDisplay resp.data.display resp.url with
        | error e => rw [hd] at h; simp at h
        | ok od =>
          rw [hd] at h
          simp only at h
          cases hi : makeAccountInfo resp.data.info resp.url with
          | error e => rw [hi] at h; simp at h
          | ok oi =>
            rw [hi] at h
            simp only at h
            cases hl : makeAccountLedger resp.data.ledger resp.url with
            | error e => rw [hl] at h; simp at h
            | ok ol =>
              rw [hl] at h
              simp only [Except.ok.injEq] at h
              subst h
              exact ⟨oc, ox, okn, od, oi, ol, rfl, rfl, rfl, rfl, rfl, rfl,
                rfl, rfl, rfl, rfl, rfl, rfl, rfl⟩

/-- C4: the canonical mapper coerces exactly the potentially-fractional
wire fields to binary64 numbers — amountDivisor (AccountDisplay),
negligibleAmount (AccountConfig), exchangeRate (CurrencyPeg),
interestRate (AccountKnowledge, optional, and AccountInfo) — while the
integer-valued fields, among them the monetary amounts (the ledger
principal, transfer amount and committed amount, acquired amount) are
the unchanged arbitrary-precision integers from the input: the
equalities hold as exact bigint equalities for all inputs, including
values beyond 2^53 that a binary64 round trip would corrupt, so these
amounts never pass through a floating-point representation. -/
theorem mapper_numeric_fields :
    (∀ (resp : HttpResponse WireAccount) (acc : AccountV0), makeAccount resp = .ok acc →
      acc.display.amountDivisor = jsNumberOfWire resp.data.display.amountDivisor ∧
      acc.config.negligibleAmount = jsNumberOfWire resp.data.config.negligibleAmount ∧
      acc.exchange.peg.map (·.exchangeRate) =
        resp.data.exchange.peg.map (fun p => jsNumberOfWire p.exchangeRate) ∧
      acc.knowledge.interestRate = resp.data.knowledge.interestRate.map jsNumberOfWire ∧
      acc.info.interestRate = (resp.data.info.interestRate.map jsNumberOfWire).getD .nan ∧
      acc.display.decimalPlaces = resp.data.display.decimalPlaces ∧
      acc.exchange.minPrincipal = resp.data.exchange.minPrincipal ∧
      acc.exchange.maxPrincipal = resp.data.exchange.maxPrincipal ∧
      acc.ledger.principal = resp.data.ledger.principal ∧
      acc.ledger.nextEntryId = resp.data.ledger.nextEntryId) ∧
    (∀ (resp : HttpResponse WireTransfer) (t : TransferV0), makeTransfer resp = .ok t →
      t.amount = resp.data.amount ∧
      t.result.map (·.committedAmount) = resp.data.result.map (·.committedAmount)) ∧
    (∀ (resp : HttpResponse WireCommittedTransfer) (c : CommittedTransferV0),
      makeCommittedTransfer resp = .ok c → c.acquiredAmount = resp.data.acquiredAmount) := by
  refine ⟨?_, ?_, ?_⟩
  · intro resp acc h
    obtain ⟨oc, ox, okn, od, oi, ol, hc, hx, hk, hd, hi, hl, _, hac, hax, hakn, had, hai, hal⟩ :=
      makeAccount_ok_elim resp acc h
    obtain ⟨_, hd1, hd2⟩ := makeAccountDisplay_ok_fields _ _ _ hd
    obtain ⟨_, hc1⟩ := makeAccountConfig_ok_fields _ _ _ hc
    obtain ⟨_, hx1, hx2, hx3⟩ := makeAccountExchange_ok_fields _ _ _ hx
    obtain ⟨_, hk1⟩ := makeAccountKnowledge_ok_fields _ _ _ hk
    obtain ⟨_, hi1⟩ := makeAccountInfo_ok_fields _ _ _ hi
    obtain ⟨_, hl1, hl2⟩ := makeAccountLedger_ok_fields _ _ _ hl
    rw [hac, hax, hakn, had, hai, hal]
    exact ⟨hd1, hc1, hx1, hk1, hi1, hd2, hx2, hx3, hl1, hl2⟩
  · intro resp t h
    by_cases h1 : TRANSFER_TYPE_test (strOfOpt resp.data.type) = true
    · by_cases h2 : TRANSFER_OPTIONS_TYPE_test (resp.data.options.type.getD "TransferOptions") = true
      · by_cases h3 :
          TRANSFER_RESULT_TYPE_test ((resp.data.result.bind (·.type)).getD "TransferResult") = true
        · by_cases h4 : TRANSFER_ERROR_TYPE_test
            ((resp.data.result.bind fun r => r.error.bind (·.type)).getD "TransferError") = true
          · simp only [makeTransfer, matchType, h1, h2, h3, h4, if_true, bind, Except.bind,
              Except.ok.injEq] at h
            subst h
            refine ⟨rfl, ?_⟩
            cases resp.data.result <;> simp
          · simp [makeTransfer, matchType, h1, h2, h3, h4, bind, Except.bind] at h
        · simp [makeTransfer, matchType, h1, h2, h3, bind, Except.bind] at h
      · simp [makeTransfer, matchType, h1, h2, bind, Except.bind] at h
    · simp [makeTransfer, matchType, h1, bind, Except.bind] at h
  · intro resp c h
    by_cases h1 : COMMITTED_TRANSFER_TYPE_test (strOfOpt resp.data.type) = true
    · simp only [makeCommittedTransfer, matchType, h1, if_true, bind, Except.bind,
        Except.ok.injEq] at h
      subst h
      rfl
    · simp [makeCommittedTransfer, matchType, h1, bind, Except.bind] at h

/-- C4 witness: the theorem applied to a concrete CommittedTransfer
response whose acquiredAmount 2^62+1 survives the mapping exactly. -/
theorem mapper_numeric_fields_witness :
    ({ type := "CommittedTransfer", uri := "https://x.example/ct/1",
       accountUri := resolveUri "a/1" "https://x.example/",
       acquiredAmount := 4611686018427387905 } : CommittedTransferV0).acquiredAmount =
      4611686018427387905 :=
  mapper_numeric_fields.2.2
    { url := "https://x.example/"
      data := { type := some "CommittedTransfer", uri := "https://x.example/ct/1",
                accountUri := "a/1", acquiredAmount := 4611686018427387905 } }
    { type := "CommittedTransfer", uri := "https://x.example/ct/1",
      accountUri := resolveUri "a/1" "https://x.example/",
      acquiredAmount := 4611686018427387905 }
    (by rfl)

/-- Helper: successful normal form of makeAccountDisplay. -/
theorem makeAccountDisplay_eq_ok (d : WireAccountDisplay) (b : String)
    (hm : ACCOUNT_DISPLAY_TYPE_test (d.type.getD "AccountDisplay") = true) :
    makeAccountDisplay d b = .ok
      { type := "AccountDisplay", uri := resolveUri d.uri b
        accountUri := resolveUri d.accountUri b
        amountDivisor := jsNumberOfWire d.amountDivisor
        decimalPlaces := d.decimalPlaces, debtorName := d.debtorName
        knownDebtor := d.knownDebtor, unit := d.unit
        latestUpdateId := d.latestUpdateId } := by
  simp [makeAccountDisplay, matchType, hm, bind, Except.bind]

/-- Helper: successful normal form of makeAccountConfig. -/
theorem makeAccountConfig_eq_ok (d : WireAccountConfig) (b : String)
    (hm : ACCOUNT_CONFIG_TYPE_test (d.type.getD "AccountConfig") = true) :
    makeAccountConfig d b = .ok
      { type := "AccountConfig", uri := resolveUri d.uri b
        accountUri := resolveUri d.accountUri b
        negligibleAmount := jsNumberOfWire d.negligibleAmount
        scheduledForDeletion := d.scheduledForDeletion
        latestUpdateId := d.latestUpdateId } := by
  simp [makeAccountConfig, matchType, hm, bind, Except.bind]

/-- Helper: successful normal form of makeAccountExchange. -/
theorem makeAccountExchange_eq_ok (d : WireAccountExchange) (b : String)
    (h1 : ACCOUNT_EXCHANGE_TYPE_test (d.type.getD "AccountExchange") = true)
    (h2 : pegTypeOk d.peg = true) :
    makeAccountExchange d b = .ok
      { type := "AccountExchange", uri := resolveUri d.uri b
        accountUri := resolveUri d.accountUri b
        peg := d.peg.map fun p =>
          { type := "CurrencyPeg", accountUri := resolveUri p.accountUri b
            exchangeRate := jsNumberOfWire p.exchangeRate }
        policy := d.policy, minPrincipal := d.minPrincipal
        maxPrincipal := d.maxPrincipal, latestUpdateId := d.latestUpdateId } := by
  have h2b : CURRENCY_PEG_TYPE_test ((d.peg.bind (·.type)).getD "CurrencyPeg") = true := h2
  simp [makeAccountExchange, matchType, h1, h2b, bind, Except.bind]

/-- Helper: successful normal form of makeAccountKnowledge. -/
theorem makeAccountKnowledge_eq_ok (d : WireAccountKnowledge) (b : String)
    (hm : ACCOUNT_KNOWLEDGE_TYPE_test (d.type.getD "AccountKnowledge") = true) :
    makeAccountKnowledge d b = .ok
      { type := "AccountKnowledge", uri := resolveUri d.uri b
        accountUri := resolveUri d.accountUri b
        interestRate := d.interestRate.map jsNumberOfWire
        latestUpdateId := d.latestUpdateId } := by
  simp [makeAccountKnowledge, matchType, hm, bind, Except.bind]

/-- Helper: successful normal form of makeAccountInfo. -/
theorem makeAccountInfo_eq_ok (d : WireAccountInfo) (b : String)
    (h1 : ACCOUNT_INFO_TYPE_test (strOfOpt d.type) = true)
    (h2 : debtorInfoTypeOk d.debtorInfo = true) :
    makeAccountInfo d b = .ok
      { type := "AccountInfo", uri := resolveUri d.uri b
        accountUri := resolveUri d.accountUri b
        interestRate := (d.interestRate.map jsNumberOfWire).getD .nan
        debtorInfo := d.debtorInfo.map fun di =>
          { type := "DebtorInfo", iri := di.iri, sha256 := di.sha256
            contentType := di.contentType }
        latestUpdateId := d.latestUpdateId } := by
  have h2b : DEBTOR_INFO_TYPE_test ((d.debtorInfo.bind (·.type)).getD "DebtorInfo") = true := h2
  simp [makeAccountInfo, matchType, h1, h2b, bind, Except.bind]

/-- Helper: successful normal form of makeAccountLedger. -/
theorem makeAccountLedger_eq_ok (d : WireAccountLedger) (b : String)
    (h1 : ACCOUNT_LEDGER_TYPE_test (strOfOpt d.type) = true)
    (h2 : entriesTypesOk d.entries = true) :
    makeAccountLedger d b = .ok
      { type := "AccountLedger", uri := resolveUri d.uri b
        accountUri := resolveUri d.accountUri b
        principal := d.principal, nextEntryId := d.nextEntryId
        entries :=
          { type := "PaginatedList", itemsType := "LedgerEntry"
            first := resolveUri d.entries.first b }
        latestUpdateId := d.latestUpdateId } := by
  have h2a : LEDGER_ENTRIES_LIST_TYPE_test (strOfOpt d.entries.type) = true := by
    have := h2
    simp only [entriesTypesOk, Bool.and_eq_true] at this
    exact this.1
  have h2b : LEDGER_ENTRY_TYPE_test (strOfOpt d.entries.itemsType) = true := by
    have := h2
    simp only [entriesTypesOk, Bool.and_eq_true] at this
    exact this.2
  simp [makeAccountLedger, matchType, h1, h2a, h2b, bind, Except.bind]

/-- Helper: successful normal form of makeCreditor. -/
theorem makeCreditor_eq_ok (resp : HttpResponse WireCreditor)
    (hm : CREDITOR_TYPE_test (resp.data.type.getD "Creditor") = true) :
    makeCreditor resp = .ok
      { type := "Creditor", uri := resp.data.uri
        walletUri := resp.buildUri resp.data.walletUri
        latestUpdateId := resp.data.latestUpdateId } := by
  simp [makeCreditor, matchType, hm, bind, Except.bind]

/-- Helper: successful normal form of makePinInfo. -/
theorem makePinInfo_eq_ok (resp : HttpResponse WirePinInfo)
    (hm : PIN_INFO_TYPE_test (resp.data.type.getD "PinInfo") = true) :
    makePinInfo resp = .ok
      { type := "PinInfo", uri := resp.data.uri
        walletUri := resp.buildUri resp.data.walletUri
        latestUpdateId := resp.data.latestUpdateId } := by
  simp [makePinInfo, matchType, hm, bind, Except.bind]

/-- Helper: successful normal form of makeTransfer. -/
theorem makeTransfer_eq_ok (resp : HttpResponse WireTransfer)
    (h1 : TRANSFER_TYPE_test (strOfOpt resp.data.type) = true)
    (h2 : transferSubTypesOk resp.data = true) :
    makeTransfer resp = .ok
      { type := "Transfer", uri := resp.data.uri
        transfersListUri := resp.buildUri resp.data.transfersListUri
        amount := resp.data.amount, transferUuid := resp.data.transferUuid
        options := { type := "TransferOptions" }
        result := resp.data.result.map fun r =>
          { type := "TransferResult", committedAmount := r.committedAmount
            error := r.error.map fun e =>
              { type := "TransferError", errorCode := e.errorCode } } } := by
  have hs := h2
  simp only [transferSubTypesOk, Bool.and_eq_true] at hs
  simp [makeTransfer, matchType, h1, hs.1.1, hs.1.2, hs.2, bind, Except.bind]

/-- Helper: successful normal form of makeCommittedTransfer. -/
theorem makeCommittedTransfer_eq_ok (resp : HttpResponse WireCommittedTransfer)
    (hm : COMMITTED_TRANSFER_TYPE_test (strOfOpt resp.data.type) = true) :
    makeCommittedTransfer resp = .ok
      { type := "CommittedTransfer", uri := resp.data.uri
        accountUri := resp.buildUri resp.data.accountUri
        acquiredAmount := resp.data.acquiredAmount } := by
  simp [makeCommittedTransfer, matchType, hm, bind, Except.bind]

/-- Helper: a missing or incompatible declared type on a field with a
default still pins down the option when the tested string is the exact
pattern. -/
theorem getD_of_strOfOpt {t : Option String} {s d : String} (h : strOfOpt t = s)
    (hne : ¬ ("undefined" = s)) : t.getD d = s := by
  cases t with
  | none => exact absurd h hne
  | some a => simpa [strOfOpt] using h

/-- Helper: failing normal form of makeAccountConfig. -/
theorem makeAccountConfig_eq_err (d : WireAccountConfig) (b : String)
    (hm : ACCOUNT_CONFIG_TYPE_test (d.type.getD "AccountConfig") = false) :
    makeAccountConfig d b = .error .wrongObjectType := by
  simp [makeAccountConfig, matchType, hm, bind, Except.bind]

/-- Helper: failing normal form of makeAccountDisplay. -/
theorem makeAccountDisplay_eq_err (d : WireAccountDisplay) (b : String)
    (hm : ACCOUNT_DISPLAY_TYPE_test (d.type.getD "AccountDisplay") = false) :
    makeAccountDisplay d b = .error .wrongObjectType := by
  simp [makeAccountDisplay, matchType, hm, bind, Except.bind]

/-- Helper: failing normal form of makeAccountKnowledge. -/
theorem makeAccountKnowledge_eq_err (d : WireAccountKnowledge) (b : String)
    (hm : ACCOUNT_KNOWLEDGE_TYPE_test (d.type.getD "AccountKnowledge") = false) :
    makeAccountKnowledge d b = .error .wrongObjectType := by
  simp [makeAccountKnowledge, matchType, hm, bind, Except.bind]

/-- Helper: failing normal form of makeAccountExchange. -/
theorem makeAccountExchange_eq_err (d : WireAccountExchange) (b : String)
    (hm : (ACCOUNT_EXCHANGE_TYPE_test (d.type.getD "AccountExchange") &&
      pegTypeOk d.peg) = false) :
    makeAccountExchange d b = .error .wrongObjectType := by
  rcases Bool.and_eq_false_iff.mp hm with h | h
  · simp [makeAccountExchange, matchType, h, bind, Except.bind]
  · by_cases h1 : ACCOUNT_EXCHANGE_TYPE_test (d.type.getD "AccountExchange") = true
    · have h2 : CURRENCY_PEG_TYPE_test ((d.peg.bind (·.type)).getD "CurrencyPeg") = false := h
      simp [makeAccountExchange, matchType, h1, h2, bind, Except.bind]
    · simp [makeAccountExchange, matchType, Bool.eq_false_iff.mpr h1, bind, Except.bind]

/-- Helper: failing normal form of makeAccountInfo. -/
theorem makeAccountInfo_eq_err (d : WireAccountInfo) (b : String)
    (hm : (ACCOUNT_INFO_TYPE_test (strOfOpt d.type) &&
      debtorInfoTypeOk d.debtorInfo) = false) :
    makeAccountInfo d b = .error .wrongObjectType := by
  rcases Bool.and_eq_false_iff.mp hm with h | h
  · simp [makeAccountInfo, matchType, h, bind, Except.bind]
  · by_cases h1 : ACCOUNT_INFO_TYPE_test (strOfOpt d.type) = true
    · have h2 : DEBTOR_INFO_TYPE_test ((d.debtorInfo.bind (·.type)).getD "DebtorInfo") = false := h
      simp [makeAccountInfo, matchType, h1, h2, bind, Except.bind]
    · simp [makeAccountInfo, matchType, Bool.eq_false_iff.mpr h1, bind, Except.bind]

/-- Helper: failing normal form of makeAccountLedger. -/
theorem makeAccountLedger_eq_err (d : WireAccountLedger) (b : String)
    (hm : (ACCOUNT_LEDGER_TYPE_test (strOfOpt d.type) &&
      entriesTypesOk d.entries) = false) :
    makeAccountLedger d b = .error .wrongObjectType := by
  rcases Bool.and_eq_false_iff.mp hm with h | h
  · simp [makeAccountLedger, matchType, h, bind, Except.bind]
  · by_cases h1 : ACCOUNT_LEDGER_TYPE_test (strOfOpt d.type) = true
    · rcases Bool.and_eq_false_iff.mp h with h2 | h2
      · simp [makeAccountLedger, matchType, h1, h2, bind, Except.bind]
      · by_cases h3 : LEDGER_ENTRIES_LIST_TYPE_test (strOfOpt d.entries.type) = true
        · simp [makeAccountLedger, matchType, h1, h3, h2, bind, Except.bind]
        · simp [makeAccountLedger, matchType, h1, Bool.eq_false_iff.mpr h3, bind,
            Except.bind]
    · simp [makeAccountLedger, matchType, Bool.eq_false_iff.mpr h1, bind, Except.bind]

/-- Helper: failing normal form of makeTransfer. -/
theorem makeTransfer_eq_err (resp : HttpResponse WireTransfer)
    (h1 : TRANSFER_TYPE_test (strOfOpt resp.data.type) = true)
    (hm : transferSubTypesOk resp.data = false) :
    makeTransfer resp = .error .wrongObjectType := by
  rcases Bool.and_eq_false_iff.mp hm with h | h
  · rcases Bool.and_eq_false_iff.mp h with h2 | h2
    · simp [makeTransfer, matchType, h1, h2, bind, Except.bind]
    · by_cases h3 : TRANSFER_OPTIONS_TYPE_test (resp.data.options.type.getD "TransferOptions") = true
      · simp [makeTransfer, matchType, h1, h3, h2, bind, Except.bind]
      · simp [makeTransfer, matchType, h1, Bool.eq_false_iff.mpr h3, bind, Except.bind]
  · by_cases h3 : TRANSFER_OPTIONS_TYPE_test (resp.data.options.type.getD "TransferOptions") = true
    · by_cases h4 :
        TRANSFER_RESULT_TYPE_test ((resp.data.result.bind (·.type)).getD "TransferResult") = true
      · simp [makeTransfer, matchType, h1, h3, h4, h, bind, Except.bind]
      · simp [makeTransfer, matchType, h1, h3, Bool.eq_false_iff.mpr h4, bind, Except.bind]
    · simp [makeTransfer, matchType, h1, Bool.eq_false_iff.mpr h3, bind, Except.bind]

/-- Helper: either makeAccount succeeds (when the six embedded
sub-objects declare compatible types) or it throws WrongObjectType. -/
theorem makeAccount_cases (resp : HttpResponse WireAccount)
    (hm : ACCOUNT_TYPE_test (strOfOpt resp.data.type) = true) :
    (accountSubTypesOk resp.data = true ∧
      ∃ o, makeAccount resp = .ok o ∧ o.type = "Account") ∨
    (accountSubTypesOk resp.data = false ∧ makeAccount resp = .error .wrongObjectType) := by
  by_cases hcfg : ACCOUNT_CONFIG_TYPE_test (resp.data.config.type.getD "AccountConfig") = true
  case neg =>
    refine Or.inr ⟨?_, ?_⟩
    · simp [accountSubTypesOk, Bool.eq_false_iff.mpr hcfg]
    · simp only [makeAccount, matchType, hm, if_true, bind, Except.bind,
        makeAccountConfig_eq_err resp.data.config resp.url (Bool.eq_false_iff.mpr hcfg)]
  case pos =>
  by_cases hx : (ACCOUNT_EXCHANGE_TYPE_test (resp.data.exchange.type.getD "AccountExchange") &&
      pegTypeOk resp.data.exchange.peg) = true
  case neg =>
    have hx2 := Bool.eq_false_iff.mpr hx
    refine Or.inr ⟨?_, ?_⟩
    · simp [accountSubTypesOk, hx2]
    · simp only [makeAccount, matchType, hm, if_true, bind, Except.bind,
        makeAccountConfig_eq_ok resp.data.config resp.url hcfg,
        makeAccountExchange_eq_err resp.data.exchange resp.url hx2]
  case pos =>
  obtain ⟨hx1, hxp⟩ := (Bool.and_eq_true _ _) ▸ hx
  by_cases hkn : ACCOUNT_KNOWLEDGE_TYPE_test
      (resp.data.knowledge.type.getD "AccountKnowledge") = true
  case neg =>
    refine Or.inr ⟨?_, ?_⟩
    · simp [accountSubTypesOk, Bool.eq_false_iff.mpr hkn]
    · simp only [makeAccount, matchType, hm, if_true, bind, Except.bind,
        makeAccountConfig_eq_ok resp.data.config resp.url hcfg,
        makeAccountExchange_eq_ok resp.data.exchange resp.url hx1 hxp,
        makeAccountKnowledge_eq_err resp.data.knowledge resp.url (Bool.eq_false_iff.mpr hkn)]
  case pos =>
  by_cases hdsp : ACCOUNT_DISPLAY_TYPE_test
      (resp.data.display.type.getD "AccountDisplay") = true
  case neg =>
    refine Or.inr ⟨?_, ?_⟩
    · simp [accountSubTypesOk, Bool.eq_false_iff.mpr hdsp]
    · simp only [makeAccount, matchType, hm, if_true, bind, Except.bind,
        makeAccountConfig_eq_ok resp.data.config resp.url hcfg,
        makeAccountExchange_eq_ok resp.data.exchange resp.url hx1 hxp,
        makeAccountKnowledge_eq_ok resp.data.knowledge resp.url hkn,
        makeAccountDisplay_eq_err resp.data.display resp.url (Bool.eq_false_iff.mpr hdsp)]
  case pos =>
  by_cases hin : (ACCOUNT_INFO_TYPE_test (strOfOpt resp.data.info.type) &&
      debtorInfoTypeOk resp.data.info.debtorInfo) = true
  case neg =>
    have hin2 := Bool.eq_false_iff.mpr hin
    refine Or.inr ⟨?_, ?_⟩
    · simp [accountSubTypesOk, hin2]
    · simp only [makeAccount, matchType, hm, if_true, bind, Except.bind,
        makeAccountConfig_eq_ok resp.data.config resp.url hcfg,
        makeAccountExchange_eq_ok resp.data.exchange resp.url hx1 hxp,
        makeAccountKnowledge_eq_ok resp.data.knowledge resp.url hkn,
        makeAccountDisplay_eq_ok resp.data.display resp.url hdsp,
        makeAccountInfo_eq_err resp.data.info resp.url hin2]
  case pos =>
  obtain ⟨hin1, hind⟩ := (Bool.and_eq_true _ _) ▸ hin
  by_cases hld : (ACCOUNT_LEDGER_TYPE_test (strOfOpt resp.data.ledger.type) &&
      entriesTypesOk resp.data.ledger.entries) = true
  case neg =>
    have hld2 := Bool.eq_false_iff.mpr hld
    refine Or.inr ⟨?_, ?_⟩
    · simp [accountSubTypesOk, hld2]
    · simp only [makeAccount, matchType, hm, if_true, bind, Except.bind,
        makeAccountConfig_eq_ok resp.data.config resp.url hcfg,
        makeAccountExchange_eq_ok resp.data.exchange resp.url hx1 hxp,
        makeAccountKnowledge_eq_ok resp.data.knowledge resp.url hkn,
        makeAccountDisplay_eq_ok resp.data.display resp.url hdsp,
        makeAccountInfo_eq_ok resp.data.info resp.url hin1 hind,
        makeAccountLedger_eq_err resp.data.ledger resp.url hld2]
  case pos =>
  obtain ⟨hld1, hlde⟩ := (Bool.and_eq_true _ _) ▸ hld
  have hsub : accountSubTypesOk resp.data = true := by
    simp [accountSubTypesOk, hcfg, hx1, hxp, hkn, hdsp, hin1, hind, hld1, hlde]
  have hsucc : ∃ o, makeAccount resp = .ok o := by
    simp only [makeAccount, matchType, hm, if_true, bind, Except.bind,
      makeAccountConfig_eq_ok resp.data.config resp.url hcfg,
      makeAccountExchange_eq_ok resp.data.exchange resp.url hx1 hxp,
      makeAccountKnowledge_eq_ok resp.data.knowledge resp.url hkn,
      makeAccountDisplay_eq_ok resp.data.display resp.url hdsp,
      makeAccountInfo_eq_ok resp.data.info resp.url hin1 hind,
      makeAccountLedger_eq_ok resp.data.ledger resp.url hld1 hlde]
    exact ⟨_, rfl⟩
  obtain ⟨o, ho⟩ := hsucc
  obtain ⟨_, _, _, _, _, _, _, _, _, _, _, _, htype, _⟩ :=
    makeAccount_ok_elim resp o ho
  exact Or.inl ⟨hsub, ⟨o, ho, htype⟩⟩

/-- Helper: makeLogObject either succeeds with an object tagged with the
canonical type of the payload (when the payload passes the complete
type-compatibility condition), or throws WrongObjectType. -/
theorem makeLogObject_cases (resp : HttpResponse RawObject) :
    (logObjectTypesOk resp.data = true ∧ ∃ o, makeLogObject resp = .ok o ∧
      some o.tag = getCanonicalType (strOfOpt resp.data.type)) ∨
    (logObjectTypesOk resp.data = false ∧ makeLogObject resp = .error .wrongObjectType) := by
  by_cases hA : ACCOUNT_TYPE_test (strOfOpt resp.data.type) = true
  case pos =>
    have hcan : getCanonicalType (strOfOpt resp.data.type) = some "Account" := by
      simp [getCanonicalType, hA]
    rcases makeAccount_cases { url := resp.url, data := RawObject.asAccount resp.data } hA with
      ⟨hsub, o, ho, htype⟩ | ⟨hsub, herr⟩
    · have hobj : makeLogObject resp = .ok (.account o) := by
        simp only [makeLogObject]
        rw [hcan]
        simp [ho, Except.map]
      refine Or.inl ⟨?_, ⟨.account o, hobj, ?_⟩⟩
      · simp [logObjectTypesOk, hA, hsub]
      · rw [hcan]
        simp [LogObject.tag]
        simp [LogObject.tag, htype]
    · refine Or.inr ⟨?_, ?_⟩
      · simp [logObjectTypesOk, hA, hsub]
      · simp only [makeLogObject]
        rw [hcan]
        simp [herr, Except.map]
  case neg =>
  have hAf := Bool.eq_false_iff.mpr hA
  by_cases hD : ACCOUNT_DISPLAY_TYPE_test (strOfOpt resp.data.type) = true
  case pos =>
    have hcan : getCanonicalType (strOfOpt resp.data.type) = some "AccountDisplay" := by
      simp [getCanonicalType, hAf, hD]
    have hs : strOfOpt resp.data.type = "AccountDisplay" := by
      simpa [ACCOUNT_DISPLAY_TYPE_test] using hD
    have hm2 : ACCOUNT_DISPLAY_TYPE_test ((resp.data.type).getD "AccountDisplay") = true := by
      simp [ACCOUNT_DISPLAY_TYPE_test, getD_of_strOfOpt hs (by decide)]
    have hobj : makeLogObject resp = (makeAccountDisplay (RawObject.asAccountDisplay resp.data) resp.url).map .accountDisplay := by
      simp only [makeLogObject]
      rw [hcan]
      simp
    rw [makeAccountDisplay_eq_ok (RawObject.asAccountDisplay resp.data) resp.url hm2, Except.map] at hobj
    refine Or.inl ⟨?_, ⟨_, hobj, ?_⟩⟩
    · simp [logObjectTypesOk, hAf, hD]
    · rw [hcan]
      simp [LogObject.tag]
  case neg =>
  have hDf := Bool.eq_false_iff.mpr hD
  by_cases hK : ACCOUNT_KNOWLEDGE_TYPE_test (strOfOpt resp.data.type) = true
  case pos =>
    have hcan : getCanonicalType (strOfOpt resp.data.type) = some "AccountKnowledge" := by
      simp [getCanonicalType, hAf, hDf, hK]
    have hs : strOfOpt resp.data.type = "AccountKnowledge" := by
      simpa [ACCOUNT_KNOWLEDGE_TYPE_test] using hK
    have hm2 : ACCOUNT_KNOWLEDGE_TYPE_test ((resp.data.type).getD "AccountKnowledge") = true := by
      simp [ACCOUNT_KNOWLEDGE_TYPE_test, getD_of_strOfOpt hs (by decide)]
    have hobj : makeLogObject resp = (makeAccountKnowledge (RawObject.asAccountKnowledge resp.data) resp.url).map .accountKnowledge := by
      simp only [makeLogObject]
      rw [hcan]
      simp
    rw [makeAccountKnowledge_eq_ok (RawObject.asAccountKnowledge resp.data) resp.url hm2, Except.map] at hobj
    refine Or.inl ⟨?_, ⟨_, hobj, ?_⟩⟩
    · simp [logObjectTypesOk, hAf, hDf, hK]
    · rw [hcan]
      simp [LogObject.tag]
  case neg =>
  have hKf := Bool.eq_false_iff.mpr hK
  by_cases hX : ACCOUNT_EXCHANGE_TYPE_test (strOfOpt resp.data.type) = true
  case pos =>
    have hcan : getCanonicalType (strOfOpt resp.data.type) = some "AccountExchange" := by
      simp [getCanonicalType, hAf, hDf, hKf, hX]
    have hs : strOfOpt resp.data.type = "AccountExchange" := by
      simpa [ACCOUNT_EXCHANGE_TYPE_test] using hX
    have hm2 : ACCOUNT_EXCHANGE_TYPE_test ((resp.data.type).getD "AccountExchange") = true := by
      simp [ACCOUNT_EXCHANGE_TYPE_test, getD_of_strOfOpt hs (by decide)]
    by_cases hsc : (pegTypeOk resp.data.peg) = true
    case pos =>
      have hobj : makeLogObject resp = (makeAccountExchange (RawObject.asAccountExchange resp.data) resp.url).map .accountExchange := by
        simp only [makeLogObject]
        rw [hcan]
        simp
      rw [makeAccountExchange_eq_ok (RawObject.asAccountExchange resp.data) resp.url hm2 hsc, Except.map] at hobj
      refine Or.inl ⟨?_, ⟨_, hobj, ?_⟩⟩
      · simp [logObjectTypesOk, hAf, hDf, hKf, hX, hsc]
      · rw [hcan]
        simp [LogObject.tag]
    case neg =>
      have hscf := Bool.eq_false_iff.mpr hsc
      refine Or.inr ⟨?_, ?_⟩
      · simp [logObjectTypesOk, hAf, hDf, hKf, hX, hscf]
      · simp only [makeLogObject]
        rw [hcan]
        simp [makeAccountExchange_eq_err (RawObject.asAccountExchange resp.data) resp.url (by simp [RawObject.asAccountExchange, hm2, hscf]), Except.map]
  case neg =>
  have hXf := Bool.eq_false_iff.mpr hX
  by_cases hL : ACCOUNT_LEDGER_TYPE_test (strOfOpt resp.data.type) = true
  case pos =>
    have hcan : getCanonicalType (strOfOpt resp.data.type) = some "AccountLedger" := by
      simp [getCanonicalType, hAf, hDf, hKf, hXf, hL]
    have hm2 := hL
    by_cases hsc : (entriesTypesOk resp.data.entries) = true
    case pos =>
      have hobj : makeLogObject resp = (makeAccountLedger (RawObject.asAccountLedger resp.data) resp.url).map .accountLedger := by
        simp only [makeLogObject]
        rw [hcan]
        simp
      rw [makeAccountLedger_eq_ok (RawObject.asAccountLedger resp.data) resp.url hm2 hsc, Except.map] at hobj
      refine Or.inl ⟨?_, ⟨_, hobj, ?_⟩⟩
      · simp [logObjectTypesOk, hAf, hDf, hKf, hXf, hL, hsc]
      · rw [hcan]
        simp [LogObject.tag]
    case neg =>
      have hscf := Bool.eq_false_iff.mpr hsc
      refine Or.inr ⟨?_, ?_⟩
      · simp [logObjectTypesOk, hAf, hDf, hKf, hXf, hL, hscf]
      · simp only [makeLogObject]
        rw [hcan]
        simp [makeAccountLedger_eq_err (RawObject.asAccountLedger resp.data) resp.url (by simp [RawObject.asAccountLedger, hm2, hscf]), Except.map]
  case neg =>
  have hLf := Bool.eq_false_iff.mpr hL
  by_cases hC : ACCOUNT_CONFIG_TYPE_test (strOfOpt resp.data.type) = true
  case pos =>
    have hcan : getCanonicalType (strOfOpt resp.data.type) = some "AccountConfig" := by
      simp [getCanonicalType, hAf, hDf, hKf, hXf, hLf, hC]
    have hs : strOfOpt resp.data.type = "AccountConfig" := by
      simpa [ACCOUNT_CONFIG_TYPE_test] using hC
    have hm2 : ACCOUNT_CONFIG_TYPE_test ((resp.data.type).getD "AccountConfig") = true := by
      simp [ACCOUNT_CONFIG_TYPE_test, getD_of_strOfOpt hs (by decide)]
    have hobj : makeLogObject resp = (makeAccountConfig (RawObject.asAccountConfig resp.data) resp.url).map .accountConfig := by
      simp only [makeLogObject]
      rw [hcan]
      simp
    rw [makeAccountConfig_eq_ok (RawObject.asAccountConfig resp.data) resp.url hm2, Except.map] at hobj
    refine Or.inl ⟨?_, ⟨_, hobj, ?_⟩⟩
    · simp [logObjectTypesOk, hAf, hDf, hKf, hXf, hLf, hC]
    · rw [hcan]
      simp [LogObject.tag]
  case neg =>
  have hCf := Bool.eq_false_iff.mpr hC
  by_cases hI : ACCOUNT_INFO_TYPE_test (strOfOpt resp.data.type) = true
  case pos =>
    have hcan : getCanonicalType (strOfOpt resp.data.type) = some "AccountInfo" := by
      simp [getCanonicalType, hAf, hDf, hKf, hXf, hLf, hCf, hI]
    have hm2 := hI
    by_cases hsc : (debtorInfoTypeOk resp.data.debtorInfo) = true
    case pos =>
      have hobj : makeLogObject resp = (makeAccountInfo (RawObject.asAccountInfo resp.data) resp.url).map .accountInfo := by
        simp only [makeLogObject]
        rw [hcan]
        simp
      rw [makeAccountInfo_eq_ok (RawObject.asAccountInfo resp.data) resp.url hm2 hsc, Except.map] at hobj
      refine Or.inl ⟨?_, ⟨_, hobj, ?_⟩⟩
      · simp [logObjectTypesOk, hAf, hDf, hKf, hXf, hLf, hCf, hI, hsc]
      · rw [hcan]
        simp [LogObject.tag]
    case neg =>
      have hscf := Bool.eq_false_iff.mpr hsc
      refine Or.inr ⟨?_, ?_⟩
      · simp [logObjectTypesOk, hAf, hDf, hKf, hXf, hLf, hCf, hI, hscf]
      · simp only [makeLogObject]
        rw [hcan]
        simp [makeAccountInfo_eq_err (RawObject.asAccountInfo resp.data) resp.url (by simp [RawObject.asAccountInfo, hm2, hscf]), Except.map]
  case neg =>
  have hIf := Bool.eq_false_iff.mpr hI
  by_cases hCr : CREDITOR_TYPE_test (strOfOpt resp.data.type) = true
  case pos =>
    have hcan : getCanonicalType (strOfOpt resp.data.type) = some "Creditor" := by
      simp [getCanonicalType, hAf, hDf, hKf, hXf, hLf, hCf, hIf, hCr]
    have hs : strOfOpt resp.data.type = "Creditor" := by
      simpa [CREDITOR_TYPE_test] using hCr
    have hm2 : CREDITOR_TYPE_test ((resp.data.type).getD "Creditor") = true := by
      simp [CREDITOR_TYPE_test, getD_of_strOfOpt hs (by decide)]
    have hobj : makeLogObject resp = (makeCreditor { url := resp.url, data := RawObject.asCreditor resp.data }).map .creditor := by
      simp only [makeLogObject]
      rw [hcan]
      simp
    rw [makeCreditor_eq_ok { url := resp.url, data := RawObject.asCreditor resp.data } hm2, Except.map] at hobj
    refine Or.inl ⟨?_, ⟨_, hobj, ?_⟩⟩
    · simp [logObjectTypesOk, hAf, hDf, hKf, hXf, hLf, hCf, hIf, hCr]
    · rw [hcan]
      simp [LogObject.tag]
  case neg =>
  have hCrf := Bool.eq_false_iff.mpr hCr
  by_cases hP : PIN_INFO_TYPE_test (strOfOpt resp.data.type) = true
  case pos =>
    have hcan : getCanonicalType (strOfOpt resp.data.type) = some "PinInfo" := by
      simp [getCanonicalType, hAf, hDf, hKf, hXf, hLf, hCf, hIf, hCrf, hP]
    have hs : strOfOpt resp.data.type = "PinInfo" := by
      simpa [PIN_INFO_TYPE_test] using hP
    have hm2 : PIN_INFO_TYPE_test ((resp.data.type).getD "PinInfo") = true := by
      simp [PIN_INFO_TYPE_test, getD_of_strOfOpt hs (by decide)]
    have hobj : makeLogObject resp = (makePinInfo { url := resp.url, data := RawObject.asPinInfo resp.data }).map .pinInfo := by
      simp only [makeLogObject]
      rw [hcan]
      simp
    rw [makePinInfo_eq_ok { url := resp.url, data := RawObject.asPinInfo resp.data } hm2, Except.map] at hobj
    refine Or.inl ⟨?_, ⟨_, hobj, ?_⟩⟩
    · simp [logObjectTypesOk, hAf, hDf, hKf, hXf, hLf, hCf, hIf, hCrf, hP]
    · rw [hcan]
      simp [LogObject.tag]
  case neg =>
  have hPf := Bool.eq_false_iff.mpr hP
  by_cases hCT : COMMITTED_TRANSFER_TYPE_test (strOfOpt resp.data.type) = true
  case pos =>
    have hcan : getCanonicalType (strOfOpt resp.data.type) = some "CommittedTransfer" := by
      simp [getCanonicalType, hAf, hDf, hKf, hXf, hLf, hCf, hIf, hCrf, hPf, hCT]
    have hm2 := hCT
    have hobj : makeLogObject resp = (makeCommittedTransfer { url := resp.url, data := RawObject.asCommittedTransfer resp.data }).map .committedTransfer := by
      simp only [makeLogObject]
      rw [hcan]
      simp
    rw [makeCommittedTransfer_eq_ok { url := resp.url, data := RawObject.asCommittedTransfer resp.data } hm2, Except.map] at hobj
    refine Or.inl ⟨?_, ⟨_, hobj, ?_⟩⟩
    · simp [logObjectTypesOk, hAf, hDf, hKf, hXf, hLf, hCf, hIf, hCrf, hPf, hCT]
    · rw [hcan]
      simp [LogObject.tag]
  case neg =>
  have hCTf := Bool.eq_false_iff.mpr hCT
  by_cases hT : TRANSFER_TYPE_test (strOfOpt resp.data.type) = true
  case pos =>
    have hcan : getCanonicalType (strOfOpt resp.data.type) = some "Transfer" := by
      simp [getCanonicalType, hAf, hDf, hKf, hXf, hLf, hCf, hIf, hCrf, hPf, hCTf, hT]
    have hm2 := hT
    by_cases hsc : (transferSubTypesOk (RawObject.asTransfer resp.data)) = true
    case pos =>
      have hobj : makeLogObject resp = (makeTransfer { url := resp.url, data := RawObject.asTransfer resp.data }).map .transfer := by
        simp only [makeLogObject]
        rw [hcan]
        simp
      rw [makeTransfer_eq_ok { url := resp.url, data := RawObject.asTransfer resp.data } hm2 hsc, Except.map] at hobj
      refine Or.inl ⟨?_, ⟨_, hobj, ?_⟩⟩
      · simp [logObjectTypesOk, hAf, hDf, hKf, hXf, hLf, hCf, hIf, hCrf, hPf, hCTf, hT, hsc]
      · rw [hcan]
        simp [LogObject.tag]
    case neg =>
      have hscf := Bool.eq_false_iff.mpr hsc
      refine Or.inr ⟨?_, ?_⟩
      · simp [logObjectTypesOk, hAf, hDf, hKf, hXf, hLf, hCf, hIf, hCrf, hPf, hCTf, hT, hscf]
      · simp only [makeLogObject]
        rw [hcan]
        simp [makeTransfer_eq_err { url := resp.url, data := RawObject.asTransfer resp.data } hm2 hscf, Except.map]
  case neg =>
  have hTf := Bool.eq_false_iff.mpr hT
  have hlogf : logObjectTypesOk resp.data = false := by
    simp [logObjectTypesOk, hAf, hDf, hKf, hXf, hLf, hCf, hIf, hCrf, hPf, hCTf, hTf]
  have herr : makeLogObject resp = .error .wrongObjectType := by
    simp only [makeLogObject]
    by_cases hAL : ACCOUNTS_LIST_TYPE_test (strOfOpt resp.data.type) = true
    · rw [show getCanonicalType (strOfOpt resp.data.type) = some "AccountsList" from by
        simp [getCanonicalType, hAf, hDf, hKf, hXf, hLf, hCf, hIf, hCrf, hPf, hCTf, hTf, hAL]]
      simp
    · by_cases hTL : TRANSFERS_LIST_TYPE_test (strOfOpt resp.data.type) = true
      · rw [show getCanonicalType (strOfOpt resp.data.type) = some "TransfersList" from by
          simp [getCanonicalType, hAf, hDf, hKf, hXf, hLf, hCf, hIf, hCrf, hPf, hCTf, hTf, Bool.eq_false_iff.mpr hAL, hTL]]
        simp
      · rw [show getCanonicalType (strOfOpt resp.data.type) = none from by
          simp [getCanonicalType, hAf, hDf, hKf, hXf, hLf, hCf, hIf, hCrf, hPf, hCTf, hTf, Bool.eq_false_iff.mpr hAL,
            Bool.eq_false_iff.mpr hTL]]
        simp
  exact Or.inr ⟨hlogf, herr⟩

/-- Helper: a payload passing the complete type condition in particular
declares a type belonging to one of the eleven understood families. -/
theorem claimed_of_logOk (r : RawObject) (h : logObjectTypesOk r = true) :
    claimedFamilyMatch r = true := by
  simp only [claimedFamilyMatch]
  simp only [logObjectTypesOk] at h
  by_cases h1 : ACCOUNT_TYPE_test (strOfOpt r.type) = true
  · simp only [h1, Bool.true_or, Bool.or_true]
  rw [if_neg h1] at h
  by_cases h2 : ACCOUNT_DISPLAY_TYPE_test (strOfOpt r.type) = true
  · simp only [h2, Bool.true_or, Bool.or_true]
  rw [if_neg h2] at h
  by_cases h3 : ACCOUNT_KNOWLEDGE_TYPE_test (strOfOpt r.type) = true
  · simp only [h3, Bool.true_or, Bool.or_true]
  rw [if_neg h3] at h
  by_cases h4 : ACCOUNT_EXCHANGE_TYPE_test (strOfOpt r.type) = true
  · simp only [h4, Bool.true_or, Bool.or_true]
  rw [if_neg h4] at h
  by_cases h5 : ACCOUNT_LEDGER_TYPE_test (strOfOpt r.type) = true
  · simp only [h5, Bool.true_or, Bool.or_true]
  rw [if_neg h5] at h
  by_cases h6 : ACCOUNT_CONFIG_TYPE_test (strOfOpt r.type) = true
  · simp only [h6, Bool.true_or, Bool.or_true]
  rw [if_neg h6] at h
  by_cases h7 : ACCOUNT_INFO_TYPE_test (strOfOpt r.type) = true
  · simp only [h7, Bool.true_or, Bool.or_true]
  rw [if_neg h7] at h
  by_cases h8 : CREDITOR_TYPE_test (strOfOpt r.type) = true
  · simp only [h8, Bool.true_or, Bool.or_true]
  rw [if_neg h8] at h
  by_cases h9 : PIN_INFO_TYPE_test (strOfOpt r.type) = true
  · simp only [h9, Bool.true_or, Bool.or_true]
  rw [if_neg h9] at h
  by_cases h10 : COMMITTED_TRANSFER_TYPE_test (strOfOpt r.type) = true
  · simp only [h10, Bool.true_or, Bool.or_true]
  rw [if_neg h10] at h
  by_cases h11 : TRANSFER_TYPE_test (strOfOpt r.type) = true
  · simp only [h11, Bool.true_or, Bool.or_true]
  rw [if_neg h11] at h
  exact absurd h (by simp)

/-- C5 amended: makeLogObject throws WrongObjectType exactly when the
payload fails the complete type-compatibility condition: the declared
top-level type must match one of the eleven understood families (Account
and its six sub-objects, Creditor, PinInfo, Transfer, CommittedTransfer)
and, in addition, every typed sub-object embedded in the payload (the
six account sub-objects, a currency peg, a debtor info, the ledger
entries list, the transfer options, result and error) must declare a
compatible type; WrongObjectType is the only error it throws, and on
success the returned object is tagged with the canonical type of the
payload family (whose pattern the declared top-level type then
necessarily matched). -/
theorem makeLogObject_wrongObjectType_iff :
    ∀ resp : HttpResponse RawObject,
      (makeLogObject resp = .error .wrongObjectType ↔ logObjectTypesOk resp.data = false) ∧
      (∀ e, makeLogObject resp = .error e → e = .wrongObjectType) ∧
      (∀ obj, makeLogObject resp = .ok obj →
        some obj.tag = getCanonicalType (strOfOpt resp.data.type) ∧
          claimedFamilyMatch resp.data = true) := by
  intro resp
  rcases makeLogObject_cases resp with ⟨hok, o, ho, htag⟩ | ⟨hfalse, herr⟩
  · refine ⟨?_, ?_, ?_⟩
    · constructor
      · intro h
        rw [ho] at h
        simp at h
      · intro h
        rw [hok] at h
        simp at h
    · intro e he
      rw [ho] at he
      simp at he
    · intro obj hobj
      rw [ho] at hobj
      simp only [Except.ok.injEq] at hobj
      subst hobj
      exact ⟨htag, claimed_of_logOk resp.data hok⟩
  · refine ⟨?_, ?_, ?_⟩
    · exact ⟨fun _ => hfalse, fun _ => herr⟩
    · intro e he
      rw [herr] at he
      exact (Except.error.inj he).symm
    · intro obj hobj
      rw [herr] at hobj
      simp at hobj

/-- C5 counterexample: a payload whose declared type Transfer matches a
recognized family pattern, yet makeLogObject still throws
WrongObjectType, because the embedded TransferOptions sub-object
declares the incompatible type Bogus — refuting the claimed equivalence
with the top-level type check alone. -/
theorem makeLogObject_claim_counterexample :
    claimedFamilyMatch cexTransferPayload = true ∧
    makeLogObject { url := "https://x.example/", data := cexTransferPayload } =
      .error .wrongObjectType := by
  exact ⟨by rfl, by rfl⟩

/-- C5 witness: the amended theorem applied to a concrete well-typed
PinInfo payload, whose produced object is tagged PinInfo. -/
theorem makeLogObject_wrongObjectType_iff_witness :
    some pinSampleObj.tag = getCanonicalType (strOfOpt pinRawSample.type) ∧
      claimedFamilyMatch pinRawSample = true :=
  (makeLogObject_wrongObjectType_iff
    { url := "https://x.example/", data := pinRawSample }).2.2 pinSampleObj (by rfl)


end Swpt
